import Mathlib

/-!
Verification development for the stanlytics backend.

The definitions below are shallow embeddings of the Python source:
`backend/smart_ml_engine.py` (the `SmartCachingMLEngine` class) and
`backend/csv_mapper.py` (the `FlexibleCSVMapper` class).

Modelling conventions:
* Python floats are modelled by `ℚ` (the analytics code only adds,
  multiplies, divides, compares and clamps; no irrational operation is
  relevant to any of the stated properties, except the anomaly detector's
  standard deviation, see `sampleDispersion`).
* pandas timestamps are modelled by `ℕ` epoch days.  The calendar
  accessors (`dayofweek`, `day`, `month`) are pandas-library internals,
  not repository code; they are modelled by fixed computable functions of
  the epoch day with the correct ranges (`dayOfWeek` is exact for the
  Unix epoch; the month accessors use a uniform 30-day month).  No claim
  depends on the particular calendar.
* The fitted scikit-learn estimators (`RandomForestRegressor`,
  `IsolationForest`, `MiniBatchKMeans`, the scalers) are opaque learned
  functions; they are modelled as abstract function parameters gathered
  in an `MLBackend`.  Every theorem quantifies over the backend.
* The pickle file cache under `model_cache/` is modelled as an explicit
  association list from file name to entry; a file that cannot be
  deserialised is a `corrupt` entry.  `time.time()` wall-clock values
  (only stored, never read) and `processing_time_seconds` metadata are
  outside the model.
* Python exceptions are modelled with `Except String`; each
  `quick_*` method is the `try`/`except` wrapper around its body.
-/

namespace Stanlytics

/-! ## Model cache (`_get_cached_model` / `_cache_model`,
    smart_ml_engine.py lines 109-139)

A cache file `model_cache/{model_type}_{cache_key}.pkl` either holds a
pickled `{model, scaler, metadata}` payload or is corrupt (fails to
deserialise).  `α` is the payload type (it differs per task kind). -/

inductive CacheEntry (α : Type) : Type where
  | good (v : α) : CacheEntry α
  | corrupt : CacheEntry α

/-- The cache directory: file name ↦ entry. -/
abbrev CacheState (α : Type) : Type := List (String × CacheEntry α)

def emptyCache {α : Type} : CacheState α := []

/-- `_get_cached_model`: if the file exists, try to unpickle it and
return the payload; on a deserialisation failure delete the file and
report a miss; if the file does not exist, report a miss. -/
def cacheLookup {α : Type} (s : CacheState α) (k : String) :
    Option α × CacheState α :=
  match s.find? (fun p => p.1 = k) with
  | none => (none, s)
  | some (_, CacheEntry.good v) => (some v, s)
  | some (_, CacheEntry.corrupt) => (none, s.filter (fun p => ¬ p.1 = k))

/-- `_cache_model`: (over)write the file with the pickled payload.
Serialising the abstract payloads cannot fail, so the `except` branch of
`_cache_model` is unreachable in the model. -/
def cacheStore {α : Type} (s : CacheState α) (k : String) (v : α) :
    CacheState α :=
  if s.any (fun p => p.1 = k) then
    s.map (fun p => if p.1 = k then (k, CacheEntry.good v) else p)
  else
    s ++ [(k, CacheEntry.good v)]

/-- The entry currently stored for a key (none if the file is absent). -/
def cacheFile {α : Type} (s : CacheState α) (k : String) :
    Option (CacheEntry α) :=
  (s.find? (fun p => p.1 = k)).map (fun p => p.2)

theorem find?_map_replace {α : Type} (s : CacheState α) (k : String) (v : α)
    (h : s.any (fun p => p.1 = k)) :
    (s.map (fun p => if p.1 = k then (k, CacheEntry.good v) else p)).find?
      (fun p => p.1 = k) = some (k, CacheEntry.good v) := by
  induction s with
  | nil => simp at h
  | cons a t ih =>
    by_cases ha : a.1 = k
    · simp [List.find?, ha]
    · have ht : t.any (fun p => p.1 = k) := by
        simpa [List.any_cons, ha] using h
      simpa [List.find?, ha] using ih ht

theorem find?_append_absent {α : Type} (s : CacheState α) (k : String) (v : α)
    (h : ¬ s.any (fun p => p.1 = k)) :
    (s ++ [(k, CacheEntry.good v)]).find? (fun p => p.1 = k) =
      some (k, CacheEntry.good v) := by
  induction s with
  | nil => simp [List.find?]
  | cons a t ih =>
    have ha : ¬ a.1 = k := by
      intro hk
      exact h (by simp [List.any_cons, hk])
    have ht : ¬ t.any (fun p => p.1 = k) := by
      intro hk
      exact h (by simp [List.any_cons, hk])
    have step : List.find? (fun p => decide (p.1 = k)) ((a :: t) ++ [(k, CacheEntry.good v)]) =
        List.find? (fun p => decide (p.1 = k)) (t ++ [(k, CacheEntry.good v)]) := by
      simp [List.find?, ha]
    rw [step]
    exact ih ht

theorem find?_cacheStore {α : Type} (s : CacheState α) (k : String) (v : α) :
    (cacheStore s k v).find? (fun p => p.1 = k) = some (k, CacheEntry.good v) := by
  unfold cacheStore
  by_cases h : s.any (fun p => p.1 = k)
  · rw [if_pos h]
    exact find?_map_replace s k v h
  · rw [if_neg h]
    exact find?_append_absent s k v h

theorem find?_filter_ne {α : Type} (s : CacheState α) (k : String) :
    (s.filter (fun p => ¬ p.1 = k)).find? (fun p => p.1 = k) = none := by
  induction s with
  | nil => rfl
  | cons a t ih =>
    by_cases ha : a.1 = k
    · simpa [List.filter, ha] using ih
    · simpa [List.filter, ha, List.find?] using ih

/-- **C3.** After `store(sig, kind, m)`, `lookup(sig, kind)` returns the
stored payload.  On a corrupt entry, `lookup` misses, the corrupt file is
deleted (so the corrupt read happens exactly once), and a subsequent
`store` succeeds: the next lookup returns the newly stored payload. -/
theorem cache_store_lookup_and_corruption {α : Type} :
    (∀ (s : CacheState α) (k : String) (v : α),
      (cacheLookup (cacheStore s k v) k).1 = some v) ∧
    (∀ (s : CacheState α) (k : String),
      cacheFile s k = some CacheEntry.corrupt →
        (cacheLookup s k).1 = none ∧
        cacheFile (cacheLookup s k).2 k = none ∧
        (∀ v : α, (cacheLookup (cacheStore (cacheLookup s k).2 k v) k).1 = some v)) := by
  constructor
  · intro s k v
    unfold cacheLookup
    rw [find?_cacheStore]
  · intro s k hcor
    unfold cacheFile at hcor
    rcases hf : s.find? (fun p => p.1 = k) with _ | ⟨n, e⟩
    · simp [hf] at hcor
    · have he : e = CacheEntry.corrupt := by simpa [hf] using hcor
      subst he
      refine ⟨?_, ?_, ?_⟩
      · simp [cacheLookup, hf]
      · simp [cacheLookup, hf, cacheFile, find?_filter_ne]
      · intro v
        unfold cacheLookup
        rw [find?_cacheStore]

/-- Witness for C3 at a concrete corrupt cache over `ℕ` payloads. -/
theorem cache_store_lookup_and_corruption_witness :
    (cacheLookup (cacheStore ([] : CacheState ℕ) "revenue_a" 7) "revenue_a").1 = some 7 ∧
    ((cacheLookup [("revenue_a", (CacheEntry.corrupt : CacheEntry ℕ))] "revenue_a").1 = none ∧
      cacheFile (cacheLookup [("revenue_a", (CacheEntry.corrupt : CacheEntry ℕ))] "revenue_a").2
        "revenue_a" = none ∧
      (∀ v : ℕ,
        (cacheLookup
          (cacheStore (cacheLookup [("revenue_a", (CacheEntry.corrupt : CacheEntry ℕ))]
            "revenue_a").2 "revenue_a" v) "revenue_a").1 = some v)) := by
  refine ⟨cache_store_lookup_and_corruption.1 [] "revenue_a" 7,
    cache_store_lookup_and_corruption.2 [("revenue_a", CacheEntry.corrupt)] "revenue_a" ?_⟩
  rfl

/-! ## The analytics engine's view of a normalized dataset

`quick_*` methods receive the normalized pandas DataFrame (`stan_df`).
The engine reads the columns `Date`, `Total Amount`, `Product Name` and
`Customer Email`; `_get_data_signature` branches on whether each of
those columns is present, so the model records a presence flag per
column next to the typed rows. -/

structure StanRow : Type where
  date : ℕ
  amount : ℚ
  product : String
  email : String
deriving DecidableEq

structure StanDF : Type where
  rows : List StanRow
  hasDate : Bool := true
  hasAmount : Bool := true
  hasProduct : Bool := true
  hasEmail : Bool := true
deriving DecidableEq

/-- One reduction step of pandas `Series.min`. -/
def minOp (a : ℕ) : Option ℕ → Option ℕ
  | none => some a
  | some b => some (min a b)

/-- One reduction step of pandas `Series.max`. -/
def maxOp (a : ℕ) : Option ℕ → Option ℕ
  | none => some a
  | some b => some (max a b)

/-- pandas `Series.min` (over our ℕ dates): `none` models `NaT` on an
empty column. -/
def seriesMin (l : List ℕ) : Option ℕ := l.foldr minOp none

/-- pandas `Series.max`. -/
def seriesMax (l : List ℕ) : Option ℕ := l.foldr maxOp none

theorem seriesMin_perm {l1 l2 : List ℕ} (h : l1.Perm l2) :
    seriesMin l1 = seriesMin l2 := by
  induction h with
  | nil => rfl
  | cons a _ ih => simp only [seriesMin, List.foldr_cons] at ih ⊢; rw [ih]
  | swap a b l =>
    simp only [seriesMin, List.foldr_cons]
    cases l.foldr minOp none with
    | none => simp [minOp, Nat.min_comm]
    | some c => simp [minOp, Nat.min_left_comm]
  | trans _ _ ih1 ih2 => exact ih1.trans ih2

theorem seriesMax_perm {l1 l2 : List ℕ} (h : l1.Perm l2) :
    seriesMax l1 = seriesMax l2 := by
  induction h with
  | nil => rfl
  | cons a _ ih => simp only [seriesMax, List.foldr_cons] at ih ⊢; rw [ih]
  | swap a b l =>
    simp only [seriesMax, List.foldr_cons]
    cases l.foldr maxOp none with
    | none => simp [maxOp, Nat.max_comm]
    | some c => simp [maxOp, Nat.max_left_comm]
  | trans _ _ ih1 ih2 => exact ih1.trans ih2

/-- `str(value)` for an optional date: `str(NaT)` is `"NaT"`. -/
def optDateStr : Option ℕ → String
  | none => "NaT"
  | some d => toString d

/-! ### `_get_data_signature` (smart_ml_engine.py lines 77-89)

The Python code builds a dictionary of data characteristics, stringifies
it and returns its md5 hex digest.  md5 is a deterministic pure function
of the string, so the model keeps the characteristics record itself as
the signature: two equal records give equal digests, which is all any
property here uses. -/

structure SignatureData : Type where
  rows : ℕ
  dateRange : String
  revenueSum : ℚ
  products : List String
  customers : ℕ
deriving DecidableEq

def getDataSignature (df : StanDF) : SignatureData where
  rows := df.rows.length
  dateRange :=
    if df.hasDate then
      optDateStr (seriesMin (df.rows.map (fun r => r.date))) ++
        optDateStr (seriesMax (df.rows.map (fun r => r.date)))
    else ""
  revenueSum := if df.hasAmount then (df.rows.map (fun r => r.amount)).sum else 0
  products :=
    if df.hasProduct then
      List.insertionSort (fun a b => a ≤ b) (df.rows.map (fun r => r.product)).dedup
    else []
  customers := if df.hasEmail then (df.rows.map (fun r => r.email)).dedup.length else 0

/-- **C2.** `DatasetSignature.compute` is invariant under row
permutation (for datasets exposing the same columns) and deterministic:
re-running it on the same input yields the same signature. -/
theorem signature_perm_invariant_and_deterministic :
    (∀ d1 d2 : StanDF, d1.rows.Perm d2.rows →
      d1.hasDate = d2.hasDate → d1.hasAmount = d2.hasAmount →
      d1.hasProduct = d2.hasProduct → d1.hasEmail = d2.hasEmail →
      getDataSignature d1 = getDataSignature d2) ∧
    (∀ d : StanDF, getDataSignature d = getDataSignature d) := by
  constructor
  · intro d1 d2 hperm hD hA hP hE
    have hdate := hperm.map (fun r => r.date)
    have hamount := hperm.map (fun r => r.amount)
    have hproduct := hperm.map (fun r => r.product)
    have hemail := hperm.map (fun r => r.email)
    simp only [getDataSignature, SignatureData.mk.injEq]
    refine ⟨hperm.length_eq, ?_, ?_, ?_, ?_⟩
    · rw [hD, seriesMin_perm hdate, seriesMax_perm hdate]
    · rw [hA, hamount.sum_eq]
    · rw [hP]
      by_cases hp : d2.hasProduct = true
      · rw [if_pos hp, if_pos hp]
        exact List.eq_of_perm_of_sorted
          ((List.perm_insertionSort _ _).trans
            (hproduct.dedup.trans (List.perm_insertionSort _ _).symm))
          (List.sorted_insertionSort _ _) (List.sorted_insertionSort _ _)
      · rw [if_neg hp, if_neg hp]
    · rw [hE, hemail.dedup.length_eq]
  · intro d
    rfl

/-- Witness for C2: a two-row dataset and its row-swapped permutation. -/
theorem signature_perm_invariant_and_deterministic_witness :
    getDataSignature { rows := [⟨3, 10, "A", "x"⟩, ⟨1, 20, "B", "y"⟩] } =
      getDataSignature { rows := [⟨1, 20, "B", "y"⟩, ⟨3, 10, "A", "x"⟩] } :=
  signature_perm_invariant_and_deterministic.1 _ _
    (List.Perm.swap _ _ _) rfl rfl rfl rfl

/-! ## Calendar accessors and small numeric helpers -/

/-- pandas `.dt.dayofweek` (Monday = 0): exact for epoch days, since
1970-01-01 was a Thursday (= 3). -/
def dayOfWeek (d : ℕ) : ℕ := (d + 3) % 7

/-- pandas `.dt.day`, in a uniform 30-day-month model of the calendar. -/
def dayOfMonth (d : ℕ) : ℕ := d % 30 + 1

/-- pandas `.dt.month`, in the same uniform model. -/
def monthOf (d : ℕ) : ℕ := d / 30 % 12 + 1

/-- `np.mean` / `Series.mean` (0 on an empty list, which the source
never hits on the paths modelled here). -/
def meanQ (l : List ℚ) : ℚ := l.sum / (l.length : ℚ)

/-- `Series.tail(n)` / keeping the last `n` values of `np.append`. -/
def lastN {α : Type} (n : ℕ) (l : List α) : List α := l.drop (l.length - n)

def boolQ (b : Bool) : ℚ := if b then 1 else 0

/-- The cache key: the model file is `model_cache/{model_type}_{key}.pkl`
where `key` is the md5 digest of the signature data; the digest is
modelled by a canonical rendering of the signature record. -/
def sigString (s : SignatureData) : String :=
  toString s.rows ++ "|" ++ s.dateRange ++ "|" ++ toString s.revenueSum ++ "|" ++
    String.intercalate "," s.products ++ "|" ++ toString s.customers

/-! ## Abstract scikit-learn backend

Fitting a `RandomForestRegressor`, `IsolationForest`, the scalers or
`MiniBatchKMeans` yields opaque learned functions; the engine is
parameterised by them.  A fitted scaler is its `transform` on one
feature row; a fitted forecaster maps a (scaled) feature row to a
prediction; a fitted isolation forest exposes `decision_function` and
`predict`; a fitted k-means maps a (scaled) feature row to a cluster. -/

structure MLBackend : Type where
  fitScalerRevenue : List (List ℚ) → (List ℚ → List ℚ)
  fitForecaster : List (List ℚ) → List ℚ → (List ℚ → ℚ)
  fitScalerAnomaly : List (List ℚ) → (List ℚ → List ℚ)
  fitAnomaly : List (List ℚ) → (List ℚ → ℚ) × (List ℚ → ℤ)
  fitScalerCustomer : List (List ℚ) → (List ℚ → List ℚ)
  fitKMeans : ℕ → List (List ℚ) → (List ℚ → ℕ)

/-- A trivial backend used to instantiate witnesses. -/
def constBackend : MLBackend where
  fitScalerRevenue := fun _ => id
  fitForecaster := fun _ _ => fun _ => 0
  fitScalerAnomaly := fun _ => id
  fitAnomaly := fun _ => (fun _ => 0, fun _ => 1)
  fitScalerCustomer := fun _ => id
  fitKMeans := fun _ _ => fun _ => 0

/-- Metadata record attached to analytics results.  The Python code
returns small dicts with task-dependent keys; absent keys are `none`.
`processing_time_seconds` is wall-clock time and stays outside the
model. -/
structure PerfMeta : Type where
  method : String
  cacheHit : Option Bool := none
  reason : Option String := none
  error : Option String := none
  trainingSamples : Option ℕ := none
  modelCached : Option Bool := none
  anomaliesDetected : Option ℕ := none
  customersSegmented : Option ℕ := none
  segmentsCreated : Option ℕ := none
deriving DecidableEq

/-! ## Forecaster (`quick_revenue_forecast`, lines 141-243) -/

/-- One row of `daily_data`: the `groupby('Date')` aggregation (pandas
sorts group keys ascending, and the subsequent `sort_values('Date')`
keeps that order).  The `'first'`-aggregated feature columns are pure
functions of the date. -/
structure DailyRow : Type where
  date : ℕ
  total : ℚ
  dow : ℕ
  weekend : Bool
  monthStart : Bool
  month : ℕ
deriving DecidableEq

def sortedUniqueDates (df : StanDF) : List ℕ :=
  List.insertionSort (fun a b => a ≤ b) ((df.rows.map (fun r => r.date)).dedup)

/-- `_extract_lightweight_features` followed by the daily `groupby`
aggregation.  A missing `Date` column makes the feature extraction fall
back to the unchanged frame (its own `try`) and then `groupby('Date')`
raise; a missing `Total Amount` column makes the `agg` raise. -/
def dailyAggregate (df : StanDF) : Except String (List DailyRow) :=
  if ¬ df.hasDate then Except.error "KeyError: 'Date'"
  else if ¬ df.hasAmount then Except.error "KeyError: 'Total Amount'"
  else Except.ok ((sortedUniqueDates df).map (fun d =>
    { date := d
      total := ((df.rows.filter (fun r => r.date = d)).map (fun r => r.amount)).sum
      dow := dayOfWeek d
      weekend := decide (dayOfWeek d ≥ 5)
      monthStart := decide (dayOfMonth d ≤ 5)
      month := monthOf d }))

structure ForecastPoint : Type where
  date : ℕ
  predicted : ℚ
  lower : ℚ
  upper : ℚ
  interval : ℚ
deriving DecidableEq

def defaultDailyRow : DailyRow := ⟨0, 0, 0, false, false, 0⟩

/-- Lag-feature rows and targets (`for i in range(3, len(daily_data))`). -/
def buildTrainingData (daily : List DailyRow) : List (List ℚ) × List ℚ :=
  let at_ := fun i => daily.getD i defaultDailyRow
  let idxs := (List.range daily.length).filter (fun i => 3 ≤ i)
  (idxs.map (fun i =>
      [ ((at_ i).dow : ℚ), boolQ (at_ i).weekend, boolQ (at_ i).monthStart,
        (at_ (i - 1)).total,
        ((at_ (i - 3)).total + (at_ (i - 2)).total + (at_ (i - 1)).total) / 3,
        ((at_ i).month : ℚ) ]),
    idxs.map (fun i => (at_ i).total))

/-- The feature row built for one forecast day inside
`_generate_forecasts_from_model`. -/
def forecastFeatures (lv : List ℚ) (fd : ℕ) : List ℚ :=
  [ (dayOfWeek fd : ℚ), boolQ (decide (dayOfWeek fd ≥ 5)),
    boolQ (decide (dayOfMonth fd ≤ 5)),
    (lv.getLast?).getD 0,
    if 3 ≤ lv.length then meanQ (lastN 3 lv) else meanQ lv,
    (monthOf fd : ℚ) ]

/-- The clamped prediction for one forecast day:
`prediction = max(prediction, mean*0.5); prediction = min(prediction, mean*2.5)`. -/
def forecastStep (model : List ℚ → ℚ) (scaler : List ℚ → List ℚ)
    (lv : List ℚ) (fd : ℕ) : ℚ :=
  min (max (model (scaler (forecastFeatures lv fd))) (meanQ lv * (1/2)))
    (meanQ lv * (5/2))

/-- The forecast loop of `_generate_forecasts_from_model`:
`last_values = np.append(last_values[1:], prediction)` after each day. -/
def forecastLoop (model : List ℚ → ℚ) (scaler : List ℚ → List ℚ) :
    List ℚ → ℕ → ℕ → List ForecastPoint
  | _, _, 0 => []
  | lv, fd, n + 1 =>
    let p := forecastStep model scaler lv fd
    let conf := p * (1/4)
    { date := fd, predicted := p, lower := p - conf, upper := p + conf,
      interval := conf } ::
      forecastLoop model scaler (lv.drop 1 ++ [p]) (fd + 1) n

/-- Ghost companion of `forecastLoop`: the trailing mean
(`np.mean(last_values)`) that seeds each forecast day's clamp. -/
def forecastSeedMeans (model : List ℚ → ℚ) (scaler : List ℚ → List ℚ) :
    List ℚ → ℕ → ℕ → List ℚ
  | _, _, 0 => []
  | lv, fd, n + 1 =>
    meanQ lv ::
      forecastSeedMeans model scaler
        (lv.drop 1 ++ [forecastStep model scaler lv fd]) (fd + 1) n

def lastDateOf (daily : List DailyRow) : ℕ :=
  (seriesMax (daily.map (fun r => r.date))).getD 0

/-- `_generate_forecasts_from_model` (lines 410-451). -/
def genForecastsFromModel (daily : List DailyRow) (model : List ℚ → ℚ)
    (scaler : List ℚ → List ℚ) (periods : ℕ) : List ForecastPoint :=
  forecastLoop model scaler (lastN 7 (daily.map (fun r => r.total)))
    (lastDateOf daily + 1) periods

/-- The base revenue of `_simple_forecast`: the mean of the daily sums,
or `100.0` when there is no data. -/
def simpleBase (df : StanDF) : ℚ :=
  let daily := (sortedUniqueDates df).map (fun d =>
    ((df.rows.filter (fun r => r.date = d)).map (fun r => r.amount)).sum)
  if daily.length = 0 then 100 else meanQ daily

/-- The per-day points of `_simple_forecast` (weekend multiplier 1.3). -/
def simpleForecastPoints (base : ℚ) (today : ℕ) (periods : ℕ) :
    List ForecastPoint :=
  (List.range periods).map (fun day =>
    let fd := today + day + 1
    let mult : ℚ := if dayOfWeek fd ≥ 5 then 13/10 else 1
    let p := base * mult
    let conf := p * (3/10)
    { date := fd, predicted := p, lower := p - conf, upper := p + conf,
      interval := conf })

/-- The flat `except` fallback of `_simple_forecast`. -/
def ultimateFallback (today : ℕ) (periods : ℕ) : List ForecastPoint :=
  (List.range periods).map (fun i =>
    { date := today + i + 1, predicted := 100, lower := 70, upper := 130,
      interval := 30 })

/-- `_simple_forecast` (lines 453-491).  `pd.Timestamp.now()` is the
explicit `today` parameter.  The groupby inside its `try` raises exactly
when `Date` or `Total Amount` is missing, landing in the flat fallback. -/
def simpleForecast (df : StanDF) (periods : ℕ) (today : ℕ) :
    List ForecastPoint :=
  if df.hasDate ∧ df.hasAmount then
    simpleForecastPoints (simpleBase df) today periods
  else ultimateFallback today periods

/-- `_generate_forecasts_from_cached_model` (lines 405-408), verbatim:
the body ignores `model` and `scaler` and delegates to
`_simple_forecast`. -/
def genForecastsFromCachedModel (df : StanDF) (model : List ℚ → ℚ)
    (scaler : List ℚ → List ℚ) (periods : ℕ) (today : ℕ) :
    List ForecastPoint :=
  simpleForecast df periods today

/-- Payload pickled for the `revenue` task. -/
structure RevMeta : Type where
  trainingSamples : ℕ
  features : ℕ
  dateRange : String

structure RevPayload : Type where
  model : List ℚ → ℚ
  scaler : List ℚ → List ℚ
  metadata : RevMeta

def revenueKey (df : StanDF) : String :=
  "revenue_" ++ sigString (getDataSignature df)

/-- The body of `quick_revenue_forecast`'s `try` block. -/
def revenueBody (B : MLBackend) (cache : CacheState RevPayload)
    (df : StanDF) (periods today : ℕ) :
    Except String ((List ForecastPoint × PerfMeta) × CacheState RevPayload) :=
  let hit := cacheLookup cache (revenueKey df)
  match hit.1 with
  | some payload =>
    Except.ok ((genForecastsFromCachedModel df payload.model payload.scaler
        periods today,
      { method := "cached_model", cacheHit := some true }), hit.2)
  | none =>
    match dailyAggregate df with
    | Except.error e => Except.error e
    | Except.ok daily =>
      if daily.length < 7 then
        Except.ok ((simpleForecast df periods today,
          { method := "simple_average", reason := some "insufficient_data" }),
          hit.2)
      else
        let td := buildTrainingData daily
        if td.1.length < 5 then
          Except.ok ((simpleForecast df periods today,
            { method := "simple_average",
              reason := some "insufficient_features" }), hit.2)
        else
          let scaler := B.fitScalerRevenue td.1
          let model := B.fitForecaster (td.1.map scaler) td.2
          let cache2 := cacheStore hit.2 (revenueKey df)
            { model := model, scaler := scaler,
              metadata :=
                { trainingSamples := td.1.length, features := 6,
                  dateRange :=
                    optDateStr (seriesMin (daily.map (fun r => r.date))) ++
                      " to " ++
                      optDateStr (seriesMax (daily.map (fun r => r.date))) } }
          Except.ok ((genForecastsFromModel daily model scaler periods,
            { method := "lightweight_training",
              trainingSamples := some td.1.length, cacheHit := some false,
              modelCached := some true }), cache2)

/-- `quick_revenue_forecast`: the `try`/`except` wrapper. -/
def quickRevenueForecast (B : MLBackend) (cache : CacheState RevPayload)
    (df : StanDF) (periods today : ℕ) :
    (List ForecastPoint × PerfMeta) × CacheState RevPayload :=
  match revenueBody B cache df periods today with
  | Except.ok r => r
  | Except.error e =>
    ((simpleForecast df periods today,
      { method := "fallback", error := some e }), cache)

/-! ## Anomaly detector (`quick_anomaly_detection`, lines 245-318) -/

/-- One row of `daily_stats`: sum / mean / std / count of the daily
amounts, with the single-observation `NaN` std filled with 0.  The
`revenueStd` feature is modelled by the sample variance (`std`
squared): the square root is a pandas numeric internal, the value only
feeds the abstract fitted model, and variance keeps the model in ℚ. -/
structure DailyStat : Type where
  date : ℕ
  totalRevenue : ℚ
  avgOrderValue : ℚ
  revenueStd : ℚ
  orderCount : ℕ
deriving DecidableEq

/-- Sample dispersion with `ddof=1` (`Series.std` squared), `fillna(0)`
for a single observation. -/
def sampleDispersion (l : List ℚ) : ℚ :=
  if l.length ≤ 1 then 0
  else ((l.map (fun x => (x - meanQ l) ^ 2)).sum) / ((l.length - 1 : ℕ) : ℚ)

def dailyStatsOf (df : StanDF) : Except String (List DailyStat) :=
  if ¬ df.hasDate then Except.error "KeyError: 'Date'"
  else if ¬ df.hasAmount then Except.error "KeyError: 'Total Amount'"
  else Except.ok ((sortedUniqueDates df).map (fun d =>
    let g := (df.rows.filter (fun r => r.date = d)).map (fun r => r.amount)
    { date := d, totalRevenue := g.sum, avgOrderValue := meanQ g,
      revenueStd := sampleDispersion g, orderCount := g.length }))

structure AnomalyRecord : Type where
  date : ℕ
  anomalyType : String
  anomalyScore : ℚ
  revenue : ℚ
  orders : ℕ
  avgOrderValue : ℚ
  severity : String
deriving DecidableEq

/-- `np.percentile(scores, 20)` with linear interpolation. -/
def percentile20 (scores : List ℚ) : ℚ :=
  let s := List.insertionSort (fun a b : ℚ => a ≤ b) scores
  if s.length = 0 then 0
  else
    let pos : ℚ := ((s.length - 1 : ℕ) : ℚ) / 5
    let i : ℕ := pos.floor.toNat
    let frac : ℚ := pos - (i : ℚ)
    let lo := s.getD i 0
    let hi := s.getD (min (i + 1) (s.length - 1)) 0
    lo + frac * (hi - lo)

/-- `Series.median`. -/
def medianQ (l : List ℚ) : ℚ :=
  let s := List.insertionSort (fun a b : ℚ => a ≤ b) l
  if s.length = 0 then 0
  else if s.length % 2 = 1 then s.getD (s.length / 2) 0
  else (s.getD (s.length / 2 - 1) 0 + s.getD (s.length / 2) 0) / 2

/-- `_extract_anomalies` (lines 493-521). -/
def extractAnomalies (stats : List DailyStat) (scores : List ℚ)
    (labels : List ℤ) : List AnomalyRecord :=
  let threshold := percentile20 scores
  let avgRevenue := medianQ (stats.map (fun st => st.totalRevenue))
  (stats.zip (scores.zip labels)).filterMap (fun p =>
    let st := p.1
    let score := p.2.1
    let label := p.2.2
    if label = -1 ∨ score < threshold then
      some
        { date := st.date
          anomalyType :=
            if st.totalRevenue > avgRevenue * 2 then "revenue_spike"
            else if st.totalRevenue < avgRevenue * (1/2) then "revenue_drop"
            else "unusual_pattern"
          anomalyScore := score
          revenue := st.totalRevenue
          orders := st.orderCount
          avgOrderValue := st.avgOrderValue
          severity := if score < threshold * (7/10) then "high" else "medium" }
    else none)

/-- Payload pickled for the `anomaly` task. -/
structure AnomMeta : Type where
  samples : ℕ
  features : ℕ

structure AnomPayload : Type where
  decision : List ℚ → ℚ
  predictLabel : List ℚ → ℤ
  scaler : List ℚ → List ℚ
  metadata : AnomMeta

def anomalyKey (df : StanDF) : String :=
  "anomaly_" ++ sigString (getDataSignature df)

/-- The body of `quick_anomaly_detection`'s `try` block.  Note the
aggregation runs before the cache-hit branch, exactly as in the source. -/
def anomalyBody (B : MLBackend) (cache : CacheState AnomPayload)
    (df : StanDF) :
    Except String ((List AnomalyRecord × PerfMeta) × CacheState AnomPayload) :=
  let hit := cacheLookup cache (anomalyKey df)
  match dailyStatsOf df with
  | Except.error e => Except.error e
  | Except.ok stats =>
    if stats.length < 5 then
      Except.ok (([], { method := "insufficient_data" }), hit.2)
    else
      let X := stats.map (fun st =>
        [st.totalRevenue, st.avgOrderValue, st.revenueStd, (st.orderCount : ℚ)])
      match hit.1 with
      | some p =>
        let scores := X.map (fun x => p.decision (p.scaler x))
        let labels := X.map (fun x => p.predictLabel (p.scaler x))
        let anomalies := extractAnomalies stats scores labels
        Except.ok ((anomalies,
          { method := "cached_isolation_forest", cacheHit := some true,
            anomaliesDetected := some anomalies.length }), hit.2)
      | none =>
        let scaler := B.fitScalerAnomaly X
        let am := B.fitAnomaly (X.map scaler)
        let scores := X.map (fun x => am.1 (scaler x))
        let labels := X.map (fun x => am.2 (scaler x))
        let cache2 := cacheStore hit.2 (anomalyKey df)
          { decision := am.1, predictLabel := am.2, scaler := scaler,
            metadata := { samples := X.length, features := 4 } }
        let anomalies := extractAnomalies stats scores labels
        Except.ok ((anomalies,
          { method := "lightweight_isolation_forest",
            anomaliesDetected := some anomalies.length,
            cacheHit := some false }), cache2)

/-- `quick_anomaly_detection`: the `try`/`except` wrapper. -/
def quickAnomalyDetection (B : MLBackend) (cache : CacheState AnomPayload)
    (df : StanDF) :
    (List AnomalyRecord × PerfMeta) × CacheState AnomPayload :=
  match anomalyBody B cache df with
  | Except.ok r => r
  | Except.error e =>
    (([], { method := "error", error := some e }), cache)

/-! ## Segmenter (`quick_customer_segmentation`, lines 320-403) -/

/-- One row of `customer_stats`: the `groupby('Customer Email')`
aggregation. -/
structure CustomerStat : Type where
  email : String
  totalSpent : ℚ
  avgOrderValue : ℚ
  orderCount : ℕ
  firstPurchase : ℕ
  lastPurchase : ℕ
deriving DecidableEq

def customerStatsOf (df : StanDF) : Except String (List CustomerStat) :=
  if ¬ df.hasEmail then Except.error "KeyError: 'Customer Email'"
  else if ¬ df.hasAmount then Except.error "KeyError: 'Total Amount'"
  else if ¬ df.hasDate then Except.error "KeyError: 'Date'"
  else Except.ok
    ((List.insertionSort (fun a b : String => a ≤ b)
        ((df.rows.map (fun r => r.email)).dedup)).map (fun e =>
      let g := df.rows.filter (fun r => r.email = e)
      { email := e
        totalSpent := (g.map (fun r => r.amount)).sum
        avgOrderValue := meanQ (g.map (fun r => r.amount))
        orderCount := g.length
        firstPurchase := (seriesMin (g.map (fun r => r.date))).getD 0
        lastPurchase := (seriesMax (g.map (fun r => r.date))).getD 0 }))

structure SegmentInfo : Type where
  segmentId : ℕ
  segmentName : String
  customerCount : ℕ
  avgTotalSpent : ℚ
  avgOrderValue : ℚ
  avgOrderFrequency : ℚ
  avgRecency : ℚ
  totalRevenueContribution : ℚ
  percentageOfCustomers : ℚ
deriving DecidableEq

def segmentNames : List String :=
  ["High Value", "Regular", "New Customers", "At Risk", "Occasional"]

/-- `_analyze_segments` (lines 523-548): one record per distinct
cluster id, ranked by total revenue contribution, descending. -/
def analyzeSegments (withRecency : List (CustomerStat × ℕ))
    (segments : List ℕ) : List SegmentInfo :=
  let pairs := withRecency.zip segments
  let ids := List.insertionSort (fun a b : ℕ => a ≤ b) segments.dedup
  let infos := ids.filterMap (fun sid =>
    let g := pairs.filter (fun p => p.2 = sid)
    if g.length = 0 then none
    else some
      { segmentId := sid
        segmentName := segmentNames.getD (sid % segmentNames.length) ""
        customerCount := g.length
        avgTotalSpent := meanQ (g.map (fun p => p.1.1.totalSpent))
        avgOrderValue := meanQ (g.map (fun p => p.1.1.avgOrderValue))
        avgOrderFrequency := meanQ (g.map (fun p => (p.1.1.orderCount : ℚ)))
        avgRecency := meanQ (g.map (fun p => (p.1.2 : ℚ)))
        totalRevenueContribution := (g.map (fun p => p.1.1.totalSpent)).sum
        percentageOfCustomers :=
          (g.length : ℚ) / (withRecency.length : ℚ) * 100 })
  List.insertionSort
    (fun a b => b.totalRevenueContribution ≤ a.totalRevenueContribution) infos

/-- Payload pickled for the `customer` task. -/
structure SegMeta : Type where
  customers : ℕ
  clusters : ℕ

structure SegPayload : Type where
  predict : List ℚ → ℕ
  scaler : List ℚ → List ℚ
  metadata : SegMeta

def customerKey (df : StanDF) : String :=
  "customer_" ++ sigString (getDataSignature df)

/-- The body of `quick_customer_segmentation`'s `try` block. -/
def segmentationBody (B : MLBackend) (cache : CacheState SegPayload)
    (df : StanDF) :
    Except String ((List SegmentInfo × PerfMeta) × CacheState SegPayload) :=
  let hit := cacheLookup cache (customerKey df)
  match customerStatsOf df with
  | Except.error e => Except.error e
  | Except.ok stats =>
    if stats.length < 4 then
      Except.ok (([], { method := "insufficient_customers" }), hit.2)
    else
      let maxDate := (seriesMax (stats.map (fun s => s.lastPurchase))).getD 0
      let withRecency := stats.map (fun s => (s, maxDate - s.lastPurchase))
      let X := withRecency.map (fun p =>
        [p.1.totalSpent, (p.1.orderCount : ℚ), (p.2 : ℚ), p.1.avgOrderValue])
      match hit.1 with
      | some p =>
        let segments := X.map (fun x => p.predict (p.scaler x))
        let analysis := analyzeSegments withRecency segments
        Except.ok ((analysis,
          { method := "cached_kmeans", cacheHit := some true,
            customersSegmented := some stats.length }), hit.2)
      | none =>
        let nClusters := min 5 (max 3 (stats.length / 10))
        let scaler := B.fitScalerCustomer X
        let km := B.fitKMeans nClusters (X.map scaler)
        let segments := (X.map scaler).map km
        let cache2 := cacheStore hit.2 (customerKey df)
          { predict := km, scaler := scaler,
            metadata := { customers := stats.length, clusters := nClusters } }
        let analysis := analyzeSegments withRecency segments
        Except.ok ((analysis,
          { method := "lightweight_kmeans",
            customersSegmented := some stats.length,
            segmentsCreated := some nClusters, cacheHit := some false }),
          cache2)

/-- `quick_customer_segmentation`: the `try`/`except` wrapper. -/
def quickCustomerSegmentation (B : MLBackend) (cache : CacheState SegPayload)
    (df : StanDF) :
    (List SegmentInfo × PerfMeta) × CacheState SegPayload :=
  match segmentationBody B cache df with
  | Except.ok r => r
  | Except.error e =>
    (([], { method := "error", error := some e }), cache)

/-! ## Claims about the analytics tasks -/

/-- **C1.** On a cache hit, the Forecaster does return metadata tagged
`cache_hit = true`, but it does **not** apply the cached model and
scaler: `_generate_forecasts_from_cached_model` ignores both arguments
and returns `_simple_forecast` of the current dataset.  The first part
shows the generator equals the simple fallback and is independent of
the cached model/scaler; the second evaluates the full cache-hit path. -/
theorem cached_forecast_ignores_model :
    (∀ (df : StanDF) (m1 m2 : List ℚ → ℚ) (s1 s2 : List ℚ → List ℚ)
      (periods today : ℕ),
      genForecastsFromCachedModel df m1 s1 periods today =
        simpleForecast df periods today ∧
      genForecastsFromCachedModel df m1 s1 periods today =
        genForecastsFromCachedModel df m2 s2 periods today) ∧
    (∀ (B : MLBackend) (cache : CacheState RevPayload) (df : StanDF)
      (periods today : ℕ) (payload : RevPayload),
      (cacheLookup cache (revenueKey df)).1 = some payload →
      quickRevenueForecast B cache df periods today =
        ((simpleForecast df periods today,
          { method := "cached_model", cacheHit := some true }),
          (cacheLookup cache (revenueKey df)).2)) := by
  constructor
  · intro df m1 m2 s1 s2 periods today
    exact ⟨rfl, rfl⟩
  · intro B cache df periods today payload h
    unfold quickRevenueForecast revenueBody
    simp only [h, genForecastsFromCachedModel]

/-- Witness dataset for the cache-hit evaluation. -/
def dfWit : StanDF := { rows := [⟨0, 5, "p", "e"⟩] }

/-- Witness payload: a (never consulted) model predicting 999. -/
def payloadWit : RevPayload :=
  { model := fun _ => 999, scaler := id,
    metadata := { trainingSamples := 0, features := 6, dateRange := "" } }

def cacheWit : CacheState RevPayload :=
  [(revenueKey dfWit, CacheEntry.good payloadWit)]

theorem cached_forecast_ignores_model_witness :
    quickRevenueForecast constBackend cacheWit dfWit 2 0 =
      ((simpleForecast dfWit 2 0,
        { method := "cached_model", cacheHit := some true }),
        (cacheLookup cacheWit (revenueKey dfWit)).2) :=
  cached_forecast_ignores_model.2 constBackend cacheWit dfWit 2 0 payloadWit
    (by simp [cacheWit, cacheLookup, List.find?])

/-- **C6.** On a dataset that aggregates to fewer than 5 distinct days
(starting from an empty cache, so the lookup misses), the Forecaster
returns the simple fallback with reason `insufficient_data`, and never
trains: the result is independent of the backend and the cache is left
empty (nothing stored). -/
theorem forecaster_insufficient_days (B : MLBackend) (df : StanDF)
    (periods today : ℕ) (hD : df.hasDate = true) (hA : df.hasAmount = true)
    (h5 : ((df.rows.map (fun r => r.date)).dedup).length < 5) :
    quickRevenueForecast B emptyCache df periods today =
      ((simpleForecast df periods today,
        { method := "simple_average", reason := some "insufficient_data" }),
        emptyCache) := by
  have hlen : (sortedUniqueDates df).length < 7 := by
    have h := (List.perm_insertionSort (fun a b : ℕ => a ≤ b)
      ((df.rows.map (fun r => r.date)).dedup)).length_eq
    unfold sortedUniqueDates
    omega
  unfold quickRevenueForecast revenueBody dailyAggregate
  simp [cacheLookup, emptyCache, hD, hA, hlen]

/-- Witness for C6: two distinct days. -/
theorem forecaster_insufficient_days_witness :
    quickRevenueForecast constBackend emptyCache
        { rows := [⟨0, 5, "p", "e"⟩, ⟨1, 7, "p", "e"⟩] } 3 0 =
      ((simpleForecast { rows := [⟨0, 5, "p", "e"⟩, ⟨1, 7, "p", "e"⟩] } 3 0,
        { method := "simple_average", reason := some "insufficient_data" }),
        emptyCache) :=
  forecaster_insufficient_days constBackend _ 3 0 rfl rfl (by decide)

/-- **C7.** A failure inside an analytics task's body (feature
derivation / aggregation / training) never propagates: each of the
three `quick_*` wrappers catches it and degrades to the task's simple
fallback, recording the reason in the performance metadata. -/
theorem analytics_failures_never_propagate :
    (∀ (B : MLBackend) (cache : CacheState RevPayload) (df : StanDF)
      (periods today : ℕ) (e : String),
      revenueBody B cache df periods today = Except.error e →
      quickRevenueForecast B cache df periods today =
        ((simpleForecast df periods today,
          { method := "fallback", error := some e }), cache)) ∧
    (∀ (B : MLBackend) (cache : CacheState AnomPayload) (df : StanDF)
      (e : String),
      anomalyBody B cache df = Except.error e →
      quickAnomalyDetection B cache df =
        (([], { method := "error", error := some e }), cache)) ∧
    (∀ (B : MLBackend) (cache : CacheState SegPayload) (df : StanDF)
      (e : String),
      segmentationBody B cache df = Except.error e →
      quickCustomerSegmentation B cache df =
        (([], { method := "error", error := some e }), cache)) := by
  refine ⟨?_, ?_, ?_⟩
  · intro B cache df periods today e h
    unfold quickRevenueForecast
    rw [h]
  · intro B cache df e h
    unfold quickAnomalyDetection
    rw [h]
  · intro B cache df e h
    unfold quickCustomerSegmentation
    rw [h]

/-- Witness dataset for C7: the `Total Amount` column is missing, so
every task body raises a `KeyError` during aggregation. -/
def dfNoAmount : StanDF := { rows := [⟨0, 5, "p", "e"⟩], hasAmount := false }

theorem analytics_failures_never_propagate_witness :
    quickRevenueForecast constBackend emptyCache dfNoAmount 7 0 =
      ((simpleForecast dfNoAmount 7 0,
        { method := "fallback", error := some "KeyError: 'Total Amount'" }),
        emptyCache) ∧
    quickAnomalyDetection constBackend emptyCache dfNoAmount =
      (([], { method := "error", error := some "KeyError: 'Total Amount'" }),
        emptyCache) ∧
    quickCustomerSegmentation constBackend emptyCache dfNoAmount =
      (([], { method := "error", error := some "KeyError: 'Total Amount'" }),
        emptyCache) :=
  ⟨analytics_failures_never_propagate.1 constBackend emptyCache dfNoAmount 7 0 _ rfl,
    analytics_failures_never_propagate.2.1 constBackend emptyCache dfNoAmount _ rfl,
    analytics_failures_never_propagate.2.2 constBackend emptyCache dfNoAmount _ rfl⟩

/-- **C10.** On a dataset with fewer than 4 distinct customer emails,
the Segmenter returns an empty result tagged `insufficient_customers`
— even when a cached model exists, since the check precedes its use —
and neither trains nor stores: the final cache state is exactly the
post-lookup state (the lookup itself may only have dropped a corrupt
entry), independent of the backend. -/
theorem segmenter_insufficient_customers (B : MLBackend)
    (cache : CacheState SegPayload) (df : StanDF)
    (hE : df.hasEmail = true) (hA : df.hasAmount = true)
    (hD : df.hasDate = true)
    (h4 : ((df.rows.map (fun r => r.email)).dedup).length < 4) :
    quickCustomerSegmentation B cache df =
      (([], { method := "insufficient_customers" }),
        (cacheLookup cache (customerKey df)).2) := by
  have hlen : (List.insertionSort (fun a b : String => a ≤ b)
      ((df.rows.map (fun r => r.email)).dedup)).length < 4 := by
    have h := (List.perm_insertionSort (fun a b : String => a ≤ b)
      ((df.rows.map (fun r => r.email)).dedup)).length_eq
    omega
  unfold quickCustomerSegmentation segmentationBody customerStatsOf
  simp [hE, hA, hD, hlen, h4]

theorem meanQ_nonneg {l : List ℚ} (h : ∀ x ∈ l, 0 ≤ x) : 0 ≤ meanQ l := by
  unfold meanQ
  exact div_nonneg (List.sum_nonneg h) (Nat.cast_nonneg _)

theorem forecastStep_clamped (model : List ℚ → ℚ) (scaler : List ℚ → List ℚ)
    (lv : List ℚ) (fd : ℕ) (hm : 0 ≤ meanQ lv) :
    meanQ lv * (1/2) ≤ forecastStep model scaler lv fd ∧
      forecastStep model scaler lv fd ≤ meanQ lv * (5/2) := by
  unfold forecastStep
  refine ⟨le_min (le_max_right _ _) ?_, min_le_right _ _⟩
  nlinarith [hm]

theorem forecastLoop_clamped (model : List ℚ → ℚ) (scaler : List ℚ → List ℚ) :
    ∀ (n : ℕ) (lv : List ℚ) (fd : ℕ), (∀ x ∈ lv, 0 ≤ x) →
    ∀ p ∈ (forecastSeedMeans model scaler lv fd n).zip
        ((forecastLoop model scaler lv fd n).map (fun f => f.predicted)),
      p.1 * (1/2) ≤ p.2 ∧ p.2 ≤ p.1 * (5/2) := by
  intro n
  induction n with
  | zero =>
    intro lv fd h p hp
    simp [forecastSeedMeans, forecastLoop] at hp
  | succ k ih =>
    intro lv fd h p hp
    have hm := meanQ_nonneg h
    simp only [forecastSeedMeans, forecastLoop, List.map_cons,
      List.zip_cons_cons, List.mem_cons] at hp
    rcases hp with hp | hp
    · rw [hp]
      exact forecastStep_clamped model scaler lv fd hm
    · refine ih (lv.drop 1 ++ [forecastStep model scaler lv fd]) (fd + 1) ?_ p hp
      intro x hx
      rcases List.mem_append.mp hx with hx | hx
      · exact h x (List.drop_subset _ _ hx)
      · have hx : x = forecastStep model scaler lv fd := by simpa using hx
        rw [hx]
        calc (0 : ℚ) ≤ meanQ lv * (1/2) := by nlinarith [hm]
          _ ≤ forecastStep model scaler lv fd :=
            (forecastStep_clamped model scaler lv fd hm).1

/-- **C4 (amended).** Every prediction the Forecaster emits lies within
[0.5×, 2.5×] of the trailing mean that seeds it, **provided that mean
is nonnegative** (with negative amounts the interval [0.5m, 2.5m] is
empty, see the counterexample).  Part 1: the trained-model generator,
whose per-period seed mean is the evolving `np.mean(last_values)`
(ghosted by `forecastSeedMeans`), under nonnegative daily totals.
Part 2: the simple fallback, whose seed is the base revenue, with
weekend multipliers 1 and 1.3 both inside [0.5, 2.5].  Part 3: on
datasets with the needed columns the simple fallback is exactly those
points seeded by `simpleBase`. -/
theorem forecast_predictions_within_clamp_of_seed_mean :
    (∀ (daily : List DailyRow) (model : List ℚ → ℚ)
      (scaler : List ℚ → List ℚ) (periods : ℕ),
      (∀ x ∈ daily.map (fun r => r.total), 0 ≤ x) →
      ∀ p ∈ (forecastSeedMeans model scaler
            (lastN 7 (daily.map (fun r => r.total))) (lastDateOf daily + 1)
            periods).zip
          ((genForecastsFromModel daily model scaler periods).map
            (fun f => f.predicted)),
        p.1 * (1/2) ≤ p.2 ∧ p.2 ≤ p.1 * (5/2)) ∧
    (∀ (base : ℚ) (today periods : ℕ), 0 ≤ base →
      ∀ f ∈ simpleForecastPoints base today periods,
        base * (1/2) ≤ f.predicted ∧ f.predicted ≤ base * (5/2)) ∧
    (∀ (df : StanDF) (periods today : ℕ),
      df.hasDate = true → df.hasAmount = true →
      simpleForecast df periods today =
        simpleForecastPoints (simpleBase df) today periods) := by
  refine ⟨?_, ?_, ?_⟩
  · intro daily model scaler periods h p hp
    refine forecastLoop_clamped model scaler periods
      (lastN 7 (daily.map (fun r => r.total))) (lastDateOf daily + 1) ?_ p hp
    intro x hx
    exact h x (List.drop_subset _ _ hx)
  · intro base today periods hb f hf
    simp only [simpleForecastPoints, List.mem_map, List.mem_range] at hf
    obtain ⟨day, _, rfl⟩ := hf
    dsimp only
    by_cases hw : dayOfWeek (today + day + 1) ≥ 5
    · rw [if_pos hw]
      constructor <;> nlinarith [hb]
    · rw [if_neg hw]
      constructor <;> nlinarith [hb]
  · intro df periods today hD hA
    simp [simpleForecast, hD, hA]

/-- Counterexample to C4 as stated: a dataset with a negative amount.
Its single aggregated day makes the Forecaster take the simple
fallback; the prediction equals the (negative) seed mean −100, which
does not lie in [0.5 × (−100), 2.5 × (−100)] = [−50, −250], an empty
interval. -/
def dfNeg : StanDF := { rows := [⟨0, -100, "p", "e"⟩] }

theorem forecast_interval_counterexample :
    (quickRevenueForecast constBackend emptyCache dfNeg 1 0).1.1.map
        (fun f => f.predicted) = [-100] ∧
    simpleBase dfNeg = -100 ∧
    ¬ (simpleBase dfNeg * (1/2) ≤ (-100 : ℚ) ∧
        (-100 : ℚ) ≤ simpleBase dfNeg * (5/2)) := by
  have hbase : simpleBase dfNeg = -100 := by
    norm_num [simpleBase, sortedUniqueDates, dfNeg, meanQ]
  have hrun : (quickRevenueForecast constBackend emptyCache dfNeg 1 0).1.1 =
      simpleForecast dfNeg 1 0 := by
    unfold quickRevenueForecast revenueBody
    norm_num [cacheLookup, emptyCache, dailyAggregate, dfNeg, sortedUniqueDates]
  refine ⟨?_, hbase, ?_⟩
  · rw [hrun]
    have hD : dfNeg.hasDate = true := rfl
    have hA : dfNeg.hasAmount = true := rfl
    have hw : dayOfWeek 1 = 4 := by norm_num [dayOfWeek]
    norm_num [simpleForecast, hD, hA, simpleForecastPoints, List.range_succ,
      hw, hbase]
  · rw [hbase]
    norm_num

/-- Witness daily row for the clamp theorem. -/
def dailyWit : List DailyRow := [⟨0, 0, 4, false, true, 1⟩]

theorem forecast_predictions_within_clamp_witness :
    (((0 : ℚ), (0 : ℚ)).1 * (1/2) ≤ ((0 : ℚ), (0 : ℚ)).2 ∧
      ((0 : ℚ), (0 : ℚ)).2 ≤ ((0 : ℚ), (0 : ℚ)).1 * (5/2)) ∧
    ((100 : ℚ) * (1/2) ≤
        (ForecastPoint.mk 1 100 70 130 30).predicted ∧
      (ForecastPoint.mk 1 100 70 130 30).predicted ≤ (100 : ℚ) * (5/2)) ∧
    simpleForecast dfWit 1 0 = simpleForecastPoints (simpleBase dfWit) 0 1 := by
  have hlv : lastN 7 (dailyWit.map (fun r => r.total)) = [0] := by
    simp [dailyWit, lastN]
  have hmean : meanQ [(0 : ℚ)] = 0 := by norm_num [meanQ]
  have hstep : forecastStep (fun _ => 0) id [(0 : ℚ)] (lastDateOf dailyWit + 1) = 0 := by
    unfold forecastStep
    rw [hmean]
    norm_num
  have hmem : ((0 : ℚ), (0 : ℚ)) ∈
      (forecastSeedMeans (fun _ => 0) id
          (lastN 7 (dailyWit.map (fun r => r.total))) (lastDateOf dailyWit + 1)
          1).zip
        ((genForecastsFromModel dailyWit (fun _ => 0) id 1).map
          (fun f => f.predicted)) := by
    rw [genForecastsFromModel, hlv]
    simp [forecastSeedMeans, forecastLoop, hmean, hstep]
  have hpt : ∀ f ∈ simpleForecastPoints 100 0 1,
      (100 : ℚ) * (1/2) ≤ f.predicted ∧ f.predicted ≤ (100 : ℚ) * (5/2) :=
    forecast_predictions_within_clamp_of_seed_mean.2.1 100 0 1 (by norm_num)
  have hmempt : ForecastPoint.mk 1 100 70 130 30 ∈ simpleForecastPoints 100 0 1 := by
    have : dayOfWeek 1 = 4 := by norm_num [dayOfWeek]
    norm_num [simpleForecastPoints, List.range_succ, this]
  exact ⟨forecast_predictions_within_clamp_of_seed_mean.1 dailyWit (fun _ => 0)
      id 1 (by intro x hx; simp [dailyWit] at hx; rw [hx]) ((0 : ℚ), (0 : ℚ))
      hmem,
    hpt _ hmempt,
    forecast_predictions_within_clamp_of_seed_mean.2.2 dfWit 1 0 rfl rfl⟩

/-- Witness for C10: two distinct emails and a populated cache. -/
theorem segmenter_insufficient_customers_witness :
    quickCustomerSegmentation constBackend
        [("other_key", CacheEntry.corrupt)]
        { rows := [⟨0, 5, "p", "a"⟩, ⟨1, 7, "p", "b"⟩] } =
      (([], { method := "insufficient_customers" }),
        (cacheLookup [("other_key", CacheEntry.corrupt)]
          (customerKey { rows := [⟨0, 5, "p", "a"⟩, ⟨1, 7, "p", "b"⟩] })).2) :=
  segmenter_insufficient_customers constBackend _ _ rfl rfl rfl (by decide)

/-! ## Schema reconciliation (`csv_mapper.py`, class `FlexibleCSVMapper`)

### `fix_malformed_csv` (lines 288-324)

The function starts with `file_content.strip().split('\n')` and ends
with `'\n'.join(...)`; the raw text is therefore modelled as its list
of lines. -/

/-- The per-data-line repair: when a line has more comma-separated
fields than the header, keep the first `expected - 1` fields and merge
the rest into one final quoted field. -/
def fixLine (expected : ℕ) (line : String) : String :=
  let columns := line.splitOn ","
  if expected < columns.length then
    let fixedColumns := columns.take (expected - 1)
    let remaining := columns.drop (expected - 1)
    let addressField := (String.intercalate "," remaining).trim
    let addressField2 :=
      if addressField ≠ "" ∧
          ¬ (addressField.startsWith "\"" ∧ addressField.endsWith "\"") then
        "\"" ++ addressField ++ "\""
      else addressField
    String.intercalate "," (fixedColumns ++ [addressField2])
  else line

def fixMalformedCsv (lines : List String) : List String :=
  if lines.length < 2 then lines
  else
    match lines with
    | [] => []
    | header :: rest =>
      header :: rest.map (fixLine ((header.splitOn ",").length))

/-- **C9.** `repairStructure` keeps the header row unchanged and never
decreases the total row count (in fact it is preserved exactly). -/
theorem repair_preserves_header_and_row_count (lines : List String) :
    (fixMalformedCsv lines).head? = lines.head? ∧
      lines.length ≤ (fixMalformedCsv lines).length := by
  unfold fixMalformedCsv
  cases lines with
  | nil => exact ⟨rfl, le_refl _⟩
  | cons header rest =>
    by_cases h : (header :: rest).length < 2
    · rw [if_pos h]
      exact ⟨rfl, le_refl _⟩
    · rw [if_neg h]
      exact ⟨rfl, by simp⟩

/-! ### The mapper's view of a pandas DataFrame

An ordered list of labelled columns; a cell is a string, a float, a
nullable integer (`Int64`), a datetime or a null (`NaN`/`NaT`/`<NA>`).
Parsed dates reuse the ℕ encoding of the engine section. -/

inductive CellV : Type where
  | str (s : String)
  | num (q : ℚ)
  | intv (n : ℤ)
  | date (d : ℕ)
  | null
deriving DecidableEq

abbrev Col := List CellV

abbrev DataFrame := List (String × Col)

def colNames (df : DataFrame) : List String := df.map (fun p => p.1)

def countName (df : DataFrame) (n : String) : ℕ :=
  (df.filter (fun p => p.1 = n)).length

def hasColumn (df : DataFrame) (n : String) : Bool :=
  df.any (fun p => p.1 = n)

def getCol (df : DataFrame) (n : String) : Col :=
  ((df.find? (fun p => p.1 = n)).map (fun p => p.2)).getD []

def replaceCol (df : DataFrame) (n : String) (c : Col) : DataFrame :=
  df.map (fun p => if p.1 = n then (n, c) else p)

def appendCol (df : DataFrame) (n : String) (c : Col) : DataFrame :=
  df ++ [(n, c)]

/-- Row count, read off the first column (the model's stand-in for the
DataFrame index length). -/
def nrows (df : DataFrame) : ℕ := ((df.head?.map (fun p => p.2.length)).getD 0)

/-! ### Field mappings (lines 7-141) -/

structure FieldMapping : Type where
  csvHeaders : List String
  internalField : String
  required : Bool := false
  dataType : String := "string"
deriving DecidableEq

def fieldMappings : List FieldMapping :=
  [ { csvHeaders := ["Customer ID", "customer_id", "customerid", "CustomerID",
        "customer", "id"], internalField := "customer_id", required := true },
    { csvHeaders := ["Order ID", "order_id", "orderid", "OrderID", "order",
        "transaction_id", "Transaction ID"], internalField := "order_id",
      required := true },
    { csvHeaders := ["Date", "date", "created_date", "Created Date",
        "order_date", "Order Date", "timestamp"], internalField := "date",
      required := true, dataType := "datetime" },
    { csvHeaders := ["Time", "time", "created_time", "Created Time",
        "order_time", "Order Time"], internalField := "time",
      dataType := "time" },
    { csvHeaders := ["Product Name", "product_name", "productname",
        "ProductName", "item", "Item Name", "product", "Product"],
      internalField := "product_name", required := true },
    { csvHeaders := ["Product Type", "product_type", "category", "Category",
        "type", "Type"], internalField := "product_type", dataType := "str",
      required := false },
    { csvHeaders := ["Product Price", "product_price", "productprice",
        "ProductPrice", "price", "unit_price", "Unit Price"],
      internalField := "product_price", dataType := "float" },
    { csvHeaders := ["Quantity", "quantity", "qty", "Qty"],
      internalField := "quantity", dataType := "int" },
    { csvHeaders := ["Subtotal", "subtotal", "Sub Total", "sub_total"],
      internalField := "subtotal", dataType := "float" },
    { csvHeaders := ["Discount Amount", "discount_amount", "discountamount",
        "DiscountAmount", "discount", "Discount"],
      internalField := "discount_amount", dataType := "float" },
    { csvHeaders := ["Total Amount", "total_amount", "totalamount",
        "TotalAmount", "total", "Total"], internalField := "total_amount",
      required := true, dataType := "float" },
    { csvHeaders := ["Tax Amount", "tax_amount", "taxamount", "TaxAmount",
        "tax", "Tax"], internalField := "tax_amount", dataType := "float" },
    { csvHeaders := ["amount", "Amount"], internalField := "total_amount",
      dataType := "float" },
    { csvHeaders := ["Customer Name", "customer_name", "customername",
        "CustomerName", "name", "Name", "Full Name", "full_name", "fullname"],
      internalField := "customer_name" },
    { csvHeaders := ["Customer Email", "customer_email", "customeremail",
        "CustomerEmail", "email", "Email"], internalField := "customer_email" },
    { csvHeaders := ["Payment Status", "payment_status", "paymentstatus",
        "PaymentStatus", "status", "Status"],
      internalField := "payment_status" },
    { csvHeaders := ["Payment Method", "payment_method", "paymentmethod",
        "PaymentMethod", "method", "Method"],
      internalField := "payment_method" },
    { csvHeaders := ["Referral Source", "referral_source", "referralsource",
        "ReferralSource", "source", "Source"],
      internalField := "referral_source" },
    { csvHeaders := ["Amount (in cents)", "amount_cents"],
      internalField := "amount", dataType := "float" },
    { csvHeaders := ["Net Revenue", "net_revenue", "net_amount", "Net Amount"],
      internalField := "net_amount", dataType := "float" },
    { csvHeaders := ["Amount Refunded", "amount_refunded", "amountrefunded",
        "AmountRefunded", "refunded"], internalField := "amount_refunded",
      dataType := "float" },
    { csvHeaders := ["Fee", "fee", "Fee Amount", "fee_amount"],
      internalField := "fee", dataType := "float" },
    { csvHeaders := ["Net", "net", "Net Amount", "net_amount"],
      internalField := "net", dataType := "float" },
    { csvHeaders := ["Created (UTC)", "created_utc", "created", "Created",
        "created_at"], internalField := "created_utc",
      dataType := "datetime" } ]

/-- Python `str.lower()`, character-wise. -/
def lowerStr (s : String) : String := String.mk (s.data.map Char.toLower)

/-- `normalize_header`: lower-case, then strip every character that is
not an ASCII letter or digit. -/
def normalizeHeader (header : String) : String :=
  String.mk ((lowerStr header).data.filter (fun c => c.isAlphanum))

/-- `find_best_match`: exact case-insensitive match first, then
normalized match. -/
def findBestMatch (csvHeader : String) (possibleHeaders : List String) : Bool :=
  possibleHeaders.any (fun possible => lowerStr csvHeader = lowerStr possible) ||
    possibleHeaders.any (fun possible =>
      normalizeHeader possible = normalizeHeader csvHeader)

/-- `map_headers`: first matching field mapping wins (the loop breaks). -/
def mapHeaders : List String → List (String × String) × List String
  | [] => ([], [])
  | h :: t =>
    let rest := mapHeaders t
    match fieldMappings.find? (fun fm => findBestMatch h fm.csvHeaders) with
    | some fm => ((h, fm.internalField) :: rest.1, rest.2)
    | none => (rest.1, h :: rest.2)

def applyMapping (mapping : List (String × String)) (n : String) : String :=
  ((mapping.find? (fun p => p.1 = n)).map (fun p => p.2)).getD n

/-- `df.rename(columns=mapping)`. -/
def renameColumns (df : DataFrame) (mapping : List (String × String)) :
    DataFrame :=
  df.map (fun p => (applyMapping mapping p.1, p.2))

/-! ### Value parsing (`pd.to_numeric` / `pd.to_datetime`, both with
`errors='coerce'`) -/

/-- Base-10 digits of a string fragment; `none` on a non-digit. -/
def digitsVal (cs : List Char) : Option ℕ :=
  cs.foldl (fun acc c =>
    match acc with
    | none => none
    | some n => if c.isDigit then some (n * 10 + (c.toNat - 48)) else none)
    (some 0)

/-- A decimal-literal parser modelling the numeric strings
`pd.to_numeric` accepts (sign, integer part, optional fraction). -/
def parseFloatQ (s : String) : Option ℚ :=
  let t := s.trim
  let sign : ℚ := if t.startsWith "-" then -1 else 1
  let rest := if t.startsWith "-" ∨ t.startsWith "+" then t.drop 1 else t
  match rest.splitOn "." with
  | [ip] =>
    if ip.length = 0 then none
    else (digitsVal ip.data).map (fun n => sign * (n : ℚ))
  | [ip, fp] =>
    if ip.length = 0 ∧ fp.length = 0 then none
    else
      match digitsVal ip.data, digitsVal fp.data with
      | some n, some f =>
        some (sign * ((n : ℚ) + (f : ℚ) / ((10 : ℚ) ^ fp.length)))
      | _, _ => none
  | _ => none

/-- An ISO `YYYY-MM-DD` parser modelling `pd.to_datetime`'s string
parse, onto the ℕ day encoding (the exact encoding is immaterial). -/
def parseDateStr (s : String) : Option ℕ :=
  match s.trim.splitOn "-" with
  | [y, m, d] =>
    match digitsVal y.data, digitsVal m.data, digitsVal d.data with
    | some yv, some mv, some dv =>
      if 0 < y.length ∧ 0 < m.length ∧ 0 < d.length ∧
          1 ≤ mv ∧ mv ≤ 12 ∧ 1 ≤ dv ∧ dv ≤ 31 then
        some (yv * 372 + (mv - 1) * 31 + (dv - 1))
      else none
    | _, _, _ => none
  | _ => none

def isDateCell : CellV → Bool
  | CellV.date _ => true
  | _ => false

def isStrCell : CellV → Bool
  | CellV.str _ => true
  | _ => false

/-- One cell of `pd.to_numeric(col, errors='coerce')`.  The `date` case
is unreachable (datetime columns make `to_numeric` raise, handled at
column level) and is kept only for totality. -/
def toNumericCell : CellV → CellV
  | CellV.str s =>
    match parseFloatQ s with
    | some q => CellV.num q
    | none => CellV.null
  | CellV.num q => CellV.num q
  | CellV.intv n => CellV.intv n
  | CellV.date d => CellV.date d
  | CellV.null => CellV.null

/-- `float` coercion: `to_numeric` on a datetime column raises, which
the surrounding `except` turns into "keep the original column". -/
def coerceFloatCol (c : Col) : Col :=
  if c.any isDateCell then c else c.map toNumericCell

def isIntegralCell : CellV → Bool
  | CellV.num q => q.den = 1
  | CellV.intv _ => true
  | CellV.null => true
  | _ => false

def toIntCell : CellV → CellV
  | CellV.num q => CellV.intv q.num
  | c => c

/-- `int` coercion: `to_numeric(...).astype('Int64')`; a non-integral
float makes `astype` raise and the original column is kept. -/
def coerceIntCol (c : Col) : Col :=
  if c.any isDateCell then c
  else
    let p := c.map toNumericCell
    if p.all isIntegralCell then p.map toIntCell else c

/-- One cell of `pd.to_datetime(col, errors='coerce')` (numbers are
read as epoch offsets). -/
def toDatetimeCell : CellV → CellV
  | CellV.str s =>
    match parseDateStr s with
    | some d => CellV.date d
    | none => CellV.null
  | CellV.num q => CellV.date q.floor.toNat
  | CellV.intv n => CellV.date n.toNat
  | CellV.date d => CellV.date d
  | CellV.null => CellV.null

def coerceDatetimeCol (c : Col) : Col := c.map toDatetimeCell

/-- The declared-type conversion for one column; `string`, `str` and
`time` have no conversion branch in the source. -/
def coerceCol (dataType : String) (c : Col) : Col :=
  if dataType = "float" then coerceFloatCol c
  else if dataType = "int" then coerceIntCol c
  else if dataType = "datetime" then coerceDatetimeCol c
  else c

/-- One iteration of the conversion loop.  With the field present once,
convert it; absent, skip; present with a duplicate label, the pandas
slice is a DataFrame, the conversion raises and the `except` keeps the
column unchanged. -/
def coerceStep (fm : FieldMapping) (df : DataFrame) : DataFrame :=
  if countName df fm.internalField = 1 then
    replaceCol df fm.internalField
      (coerceCol fm.dataType (getCol df fm.internalField))
  else df

def coerceAll (df : DataFrame) : DataFrame :=
  fieldMappings.foldl (fun w fm => coerceStep fm w) df

/-! ### Compatibility aliases and the combined-date repair
(lines 238-275) -/

def compatibilityAliases : List (String × String) :=
  [("total_amount", "Total Amount"), ("date", "Date"),
   ("product_name", "Product Name"), ("customer_name", "Customer Name"),
   ("customer_email", "Customer Email"), ("order_id", "Order ID"),
   ("customer_id", "Customer ID"), ("quantity", "Quantity"),
   ("product_price", "Product Price"), ("tax_amount", "Tax Amount"),
   ("payment_status", "Payment Status"), ("payment_method", "Payment Method"),
   ("referral_source", "Referral Source")]

/-- One alias assignment (line 258): with the internal column present
and the legacy label absent, `df_mapped[old] = df_mapped[new]` copies
the column.  A duplicated internal label makes the right-hand selection
a two-column frame, and pandas raises an uncaught ValueError on the
assignment to the fresh single column. -/
def aliasAssign (w : DataFrame) (pair : String × String) :
    Except String DataFrame :=
  if hasColumn w pair.1 ∧ ¬ hasColumn w pair.2 then
    if countName w pair.1 = 1 then
      Except.ok (appendCol w pair.2 (getCol w pair.1))
    else Except.error
      "ValueError: cannot set a DataFrame with multiple columns to a single column"
  else Except.ok w

/-- The alias loop (lines 256-258); the first failing assignment
escapes the whole function. -/
def aliasFold : List (String × String) → DataFrame → Except String DataFrame
  | [], df => Except.ok df
  | pair :: pairs, df =>
    match aliasAssign df pair with
    | Except.ok w => aliasFold pairs w
    | Except.error e => Except.error e

def aliasStep (df : DataFrame) : Except String DataFrame :=
  aliasFold compatibilityAliases df

/-- `str(value)` of a cell, as used by `.astype(str)`. -/
def cellPyStr : CellV → String
  | CellV.str s => s
  | CellV.num q => toString q
  | CellV.intv n => toString n
  | CellV.date d => toString d
  | CellV.null => "nan"

/-- Python `str.split()`: split on whitespace runs, dropping empties. -/
def splitTokens (s : String) : List String :=
  (s.splitOn " ").filter (fun t => ¬ t = "")

/-- The combined date-time repair: only when the `date` column is still
raw text (object dtype), sampling the first row.  An empty column makes
`iloc[0]` raise inside the branch's own `try` (no change). -/
def combinedDateBranch (df : DataFrame) : DataFrame :=
  if countName df "date" = 1 ∧ (getCol df "date").any isStrCell then
    match (getCol df "date").head? with
    | none => df
    | some v =>
      let sample := cellPyStr v
      if sample.contains ' ' ∧ 2 ≤ (splitTokens sample).length then
        replaceCol df "date" ((getCol df "date").map (fun c =>
          toDatetimeCell (CellV.str ((splitTokens (cellPyStr c)).headD ""))))
      else df
  else df

/-- `transform_dataframe` (lines 208-275): rename, coerce declared
types, add backward-compatibility aliases, run the combined-date
repair.  Two failures escape the function: a multi-column alias
assignment on a duplicated internal label (line 258), and
`df['date'].dtype` on a duplicate `date` label (line 261, outside any
`try`). -/
def transformDataframe (df : DataFrame) (mapping : List (String × String)) :
    Except String DataFrame :=
  match aliasStep (coerceAll (renameColumns df mapping)) with
  | Except.error e => Except.error e
  | Except.ok aliased =>
    if 2 ≤ countName aliased "date" then
      Except.error "AttributeError: dtype on duplicate date columns"
    else Except.ok (combinedDateBranch aliased)

/-! ### Field synthesis and validation (lines 179-206, 414-435) -/

/-- `generate_missing_fields`: synthesize `customer_id` from
`customer_email`, then `order_id` from date + index (falling back to
the raw date strings when parsing produced nulls), then `order_id` from
the fixed prefix + index.  Each rule fires only when the target is
absent. -/
def generateMissingFields (dfMapped : DataFrame)
    (mapping : List (String × String)) (dfOriginal : DataFrame) : DataFrame :=
  let df1 :=
    if ¬ hasColumn dfMapped "customer_id" ∧ hasColumn dfMapped "customer_email"
    then
      appendCol dfMapped "customer_id"
        ((getCol dfMapped "customer_email").map (fun c =>
          CellV.str (cellPyStr c)))
    else dfMapped
  let df2 :=
    if ¬ hasColumn df1 "order_id" ∧ hasColumn df1 "date" then
      if (getCol df1 "date").any (fun c => c = CellV.null) then
        match mapping.find? (fun p => p.2 = "date") with
        | some pr =>
          appendCol df1 "order_id"
            ((getCol dfOriginal pr.1).enum.map (fun p =>
              CellV.str (cellPyStr p.2 ++ "_" ++ toString p.1)))
        | none => df1
      else
        appendCol df1 "order_id"
          ((getCol df1 "date").enum.map (fun p =>
            CellV.str (cellPyStr p.2 ++ "_" ++ toString p.1)))
    else df1
  if ¬ hasColumn df2 "order_id" then
    appendCol df2 "order_id"
      ((List.range (nrows df2)).map (fun i =>
        CellV.str ("ORDER_" ++ toString i)))
  else df2

def oldFormatFields : List String :=
  ["Total Amount", "Date", "Product Name", "Customer ID", "Order ID"]

/-- `validate_required_fields` in its `df_final is not None` form (the
one `process_csv` uses after synthesis): legacy-format frames are
deemed complete; otherwise every required canonical field must be a
column of the final frame. -/
def validateRequiredFields (mapping : List (String × String))
    (dfFinal : DataFrame) : List String :=
  if oldFormatFields.all (fun f => hasColumn dfFinal f) then []
  else
    (fieldMappings.filter (fun fm =>
      fm.required ∧ ¬ hasColumn dfFinal fm.internalField)).map
      (fun fm => fm.internalField)

/-- The generic (non-legacy) path of `process_csv` after parsing:
map headers → transform → synthesize → validate.  Returns the final
frame and the missing-required-fields list. -/
def processNewFormat (df : DataFrame) :
    Except String (DataFrame × List String) :=
  let mu := mapHeaders (colNames df)
  match transformDataframe df mu.1 with
  | Except.error e => Except.error e
  | Except.ok t =>
    let g := generateMissingFields t mu.1 df
    Except.ok (g, validateRequiredFields mu.1 g)

/-! ### Toward C8: idempotence infrastructure -/

theorem colNames_replaceCol (df : DataFrame) (n : String) (c : Col) :
    colNames (replaceCol df n c) = colNames df := by
  unfold colNames replaceCol
  rw [List.map_map]
  apply List.map_congr_left
  intro p _
  by_cases hp : p.1 = n <;> simp [hp]

theorem countName_eq_names (df : DataFrame) (m : String) :
    countName df m = ((colNames df).filter (fun s => s = m)).length := by
  induction df with
  | nil => rfl
  | cons p t ih =>
    by_cases hp : p.1 = m <;>
      simp [countName, colNames, List.filter, hp] at ih ⊢ <;> omega

theorem countName_cons (a : String) (col : Col) (t : DataFrame) (m : String) :
    countName ((a, col) :: t) m = countName t m + (if a = m then 1 else 0) := by
  by_cases h : a = m <;> simp [countName, List.filter_cons, h]

theorem hasColumn_eq_names (df : DataFrame) (n : String) :
    hasColumn df n = (colNames df).any (fun s => s = n) := by
  induction df with
  | nil => rfl
  | cons p t ih => simp [hasColumn, colNames, List.any_cons] at ih ⊢; rw [ih]

theorem countName_replaceCol (df : DataFrame) (n m : String) (c : Col) :
    countName (replaceCol df n c) m = countName df m := by
  rw [countName_eq_names, colNames_replaceCol, ← countName_eq_names]

theorem colNames_appendCol (df : DataFrame) (t : String) (c : Col) :
    colNames (appendCol df t c) = colNames df ++ [t] := by
  simp [colNames, appendCol]

theorem countName_appendCol (df : DataFrame) (t : String) (c : Col)
    (n : String) :
    countName (appendCol df t c) n =
      countName df n + (if t = n then 1 else 0) := by
  rw [countName_eq_names, colNames_appendCol, List.filter_append,
    List.length_append, ← countName_eq_names]
  by_cases h : t = n <;> simp [h]

theorem getCol_replaceCol_self (df : DataFrame) (n : String) (c : Col)
    (h : 1 ≤ countName df n) : getCol (replaceCol df n c) n = c := by
  induction df with
  | nil => simp [countName] at h
  | cons p t ih =>
    obtain ⟨a, col⟩ := p
    by_cases ha : a = n
    · subst ha
      simp [replaceCol, getCol, List.find?]
    · have ht : 1 ≤ countName t n := by
        simpa [countName, List.filter, ha] using h
      simpa [replaceCol, getCol, List.find?, ha] using ih ht

theorem getCol_replaceCol_ne (df : DataFrame) (n m : String) (c : Col)
    (h : ¬ n = m) : getCol (replaceCol df n c) m = getCol df m := by
  induction df with
  | nil => rfl
  | cons p t ih =>
    obtain ⟨a, col⟩ := p
    by_cases ha : a = n
    · subst ha
      simpa [replaceCol, getCol, List.find?, h] using ih
    · by_cases hm : a = m
      · subst hm
        simp [replaceCol, getCol, List.find?, ha]
      · simpa [replaceCol, getCol, List.find?, ha, hm] using ih

theorem replaceCol_absent (df : DataFrame) (n : String) (c : Col)
    (h : countName df n = 0) : replaceCol df n c = df := by
  induction df with
  | nil => rfl
  | cons p t ih =>
    obtain ⟨a, col⟩ := p
    by_cases ha : a = n
    · simp [countName, List.filter, ha] at h
    · have ht : countName t n = 0 := by
        simpa [countName, List.filter, ha] using h
      simp [replaceCol, ha] at ih ⊢
      exact ih ht

theorem replaceCol_getCol_self (df : DataFrame) (n : String)
    (h : countName df n ≤ 1) : replaceCol df n (getCol df n) = df := by
  induction df with
  | nil => rfl
  | cons p t ih =>
    obtain ⟨a, col⟩ := p
    by_cases ha : a = n
    · subst ha
      have ht0 : countName t a = 0 := by
        rw [countName_cons, if_pos rfl] at h
        omega
      have hget : getCol ((a, col) :: t) a = col := by
        simp [getCol, List.find?]
      rw [hget]
      have : replaceCol ((a, col) :: t) a col =
          (a, col) :: replaceCol t a col := by
        simp [replaceCol]
      rw [this, replaceCol_absent t a col ht0]
    · have ht : countName t n ≤ 1 := by
        simpa [countName, List.filter, ha] using h
      have hget : getCol ((a, col) :: t) n = getCol t n := by
        simp [getCol, List.find?, ha]
      rw [hget]
      have : replaceCol ((a, col) :: t) n (getCol t n) =
          (a, col) :: replaceCol t n (getCol t n) := by
        simp [replaceCol, ha]
      rw [this, ih ht]

theorem getCol_appendCol_ne (df : DataFrame) (t : String) (c : Col)
    (n : String) (h : ¬ t = n) : getCol (appendCol df t c) n = getCol df n := by
  unfold appendCol getCol
  rw [List.find?_append]
  cases hf : df.find? (fun p => p.1 = n) with
  | none => simp [List.find?, h]
  | some p => simp

theorem hasColumn_appendCol (df : DataFrame) (t : String) (c : Col)
    (n : String) :
    hasColumn (appendCol df t c) n = (hasColumn df n || decide (t = n)) := by
  simp [appendCol, hasColumn, List.any_append]

/-! Cell-level idempotence of the three conversions. -/

theorem toNumericCell_fix (c : CellV) (h : isDateCell c = false) :
    isDateCell (toNumericCell c) = false ∧
      isStrCell (toNumericCell c) = false ∧
      toNumericCell (toNumericCell c) = toNumericCell c := by
  cases c with
  | str s =>
    cases hp : parseFloatQ s <;> simp [toNumericCell, hp, isDateCell, isStrCell]
  | num q => simp [toNumericCell, isDateCell, isStrCell]
  | intv n => simp [toNumericCell, isDateCell, isStrCell]
  | date d => simp [isDateCell] at h
  | null => simp [toNumericCell, isDateCell, isStrCell]

theorem coerceFloatCol_idem (c : Col) :
    coerceFloatCol (coerceFloatCol c) = coerceFloatCol c := by
  unfold coerceFloatCol
  by_cases h : c.any isDateCell
  · simp [h]
  · rw [if_neg h]
    have hall : ∀ x ∈ c, isDateCell x = false := by
      intro x hx
      by_contra hcon
      exact h (List.any_eq_true.mpr ⟨x, hx, by simpa using hcon⟩)
    have h2 : (c.map toNumericCell).any isDateCell = false := by
      rw [List.any_map]
      simp only [List.any_eq_false]
      intro x hx
      simp only [Function.comp_apply]
      simp [(toNumericCell_fix x (hall x hx)).1]
    rw [if_neg (by simp [h2]), List.map_map]
    exact List.map_congr_left (fun x hx => (toNumericCell_fix x (hall x hx)).2.2)

theorem toDatetimeCell_idem (c : CellV) :
    toDatetimeCell (toDatetimeCell c) = toDatetimeCell c := by
  cases c with
  | str s => cases hp : parseDateStr s <;> simp [toDatetimeCell, hp]
  | num q => simp [toDatetimeCell]
  | intv n => simp [toDatetimeCell]
  | date d => simp [toDatetimeCell]
  | null => simp [toDatetimeCell]

theorem coerceDatetimeCol_idem (c : Col) :
    coerceDatetimeCol (coerceDatetimeCol c) = coerceDatetimeCol c := by
  unfold coerceDatetimeCol
  rw [List.map_map]
  exact List.map_congr_left (fun x _ => toDatetimeCell_idem x)

theorem coerceIntCol_idem (c : Col) :
    coerceIntCol (coerceIntCol c) = coerceIntCol c := by
  by_cases h : c.any isDateCell = true
  · have hc : coerceIntCol c = c := by
      unfold coerceIntCol
      rw [if_pos h]
    rw [hc, hc]
  · have hall : ∀ x ∈ c, isDateCell x = false := by
      intro x hx
      by_contra hcon
      exact h (List.any_eq_true.mpr ⟨x, hx, by simpa using hcon⟩)
    by_cases hint : (c.map toNumericCell).all isIntegralCell = true
    · have hc : coerceIntCol c = (c.map toNumericCell).map toIntCell := by
        unfold coerceIntCol
        rw [if_neg h, if_pos hint]
      have hshape : ∀ y ∈ (c.map toNumericCell).map toIntCell,
          isDateCell y = false ∧ toNumericCell y = y ∧
            isIntegralCell y = true ∧ toIntCell y = y := by
        intro y hy
        rw [List.map_map] at hy
        obtain ⟨x, hx, rfl⟩ := List.mem_map.mp hy
        have hfx := toNumericCell_fix x (hall x hx)
        rcases hz : toNumericCell x with s | q | n | d | _
        · rw [hz] at hfx
          simp [isStrCell] at hfx
        · simp only [Function.comp_apply, hz]
          simp [toIntCell, toNumericCell, isDateCell, isIntegralCell]
        · simp only [Function.comp_apply, hz]
          simp [toIntCell, toNumericCell, isDateCell, isIntegralCell]
        · rw [hz] at hfx
          simp [isDateCell] at hfx
        · simp only [Function.comp_apply, hz]
          simp [toIntCell, toNumericCell, isDateCell, isIntegralCell]
      set r := (c.map toNumericCell).map toIntCell with hr
      have hrdate : r.any isDateCell = false := by
        simp only [List.any_eq_false]
        intro y hy
        simp [(hshape y hy).1]
      have hrnum : r.map toNumericCell = r := by
        have hmc : r.map toNumericCell = r.map id :=
          List.map_congr_left (fun y hy => (hshape y hy).2.1)
        simpa using hmc
      have hrint : r.all isIntegralCell = true := by
        simp only [List.all_eq_true]
        intro y hy
        exact (hshape y hy).2.2.1
      have hrint2 : r.map toIntCell = r := by
        have hmc : r.map toIntCell = r.map id :=
          List.map_congr_left (fun y hy => (hshape y hy).2.2.2)
        simpa using hmc
      have hgoal : coerceIntCol r = r := by
        unfold coerceIntCol
        rw [if_neg (by simp [hrdate])]
        simp only [hrnum, if_pos hrint, hrint2]
      rw [hc]
      exact hgoal
    · have hc : coerceIntCol c = c := by
        unfold coerceIntCol
        rw [if_neg h, if_neg hint]
      rw [hc, hc]

theorem coerceCol_idem (dataType : String) (c : Col) :
    coerceCol dataType (coerceCol dataType c) = coerceCol dataType c := by
  unfold coerceCol
  by_cases h1 : dataType = "float"
  · simp [h1, coerceFloatCol_idem]
  · by_cases h2 : dataType = "int"
    · simp [h1, h2, coerceIntCol_idem]
    · by_cases h3 : dataType = "datetime"
      · simp [h1, h2, h3, coerceDatetimeCol_idem]
      · simp [h1, h2, h3]

/-- A column already fixed by its declared coercion (the state of every
once-coerced singleton column). -/
def CoerceFixedAt (w : DataFrame) (fm : FieldMapping) : Prop :=
  countName w fm.internalField = 1 →
    coerceCol fm.dataType (getCol w fm.internalField) =
      getCol w fm.internalField

theorem countName_coerceStep (fm : FieldMapping) (w : DataFrame) (n : String) :
    countName (coerceStep fm w) n = countName w n := by
  unfold coerceStep
  by_cases h : countName w fm.internalField = 1
  · rw [if_pos h, countName_replaceCol]
  · rw [if_neg h]

theorem countName_coerceFold (fms : List FieldMapping) (w : DataFrame)
    (n : String) :
    countName (fms.foldl (fun a fm => coerceStep fm a) w) n = countName w n := by
  induction fms generalizing w with
  | nil => rfl
  | cons fm fms ih =>
    rw [List.foldl_cons, ih, countName_coerceStep]

theorem coerceFold_fixed (fms : List FieldMapping) (w : DataFrame)
    (h : ∀ fm ∈ fms, CoerceFixedAt w fm) :
    fms.foldl (fun a fm => coerceStep fm a) w = w := by
  induction fms with
  | nil => rfl
  | cons fm fms ih =>
    have hstep : coerceStep fm w = w := by
      unfold coerceStep
      by_cases hc : countName w fm.internalField = 1
      · rw [if_pos hc, h fm (List.mem_cons_self fm fms) hc]
        exact replaceCol_getCol_self w _ (by omega)
      · rw [if_neg hc]
    rw [List.foldl_cons, hstep]
    exact ih (fun fm2 h2 => h fm2 (List.mem_cons_of_mem fm h2))

theorem coerceFold_preserves_fixed (fms : List FieldMapping) (w : DataFrame)
    (n : String) (dt : String)
    (hdt : ∀ fm ∈ fms, fm.internalField = n → fm.dataType = dt)
    (hfix : coerceCol dt (getCol w n) = getCol w n) :
    coerceCol dt (getCol (fms.foldl (fun a fm => coerceStep fm a) w) n) =
      getCol (fms.foldl (fun a fm => coerceStep fm a) w) n := by
  induction fms generalizing w with
  | nil => exact hfix
  | cons fm fms ih =>
    rw [List.foldl_cons]
    refine ih (coerceStep fm w)
      (fun fm2 h2 he => hdt fm2 (List.mem_cons_of_mem fm h2) he) ?_
    unfold coerceStep
    by_cases hc : countName w fm.internalField = 1
    · rw [if_pos hc]
      by_cases hn : fm.internalField = n
      · rw [hn] at hc ⊢
        rw [getCol_replaceCol_self _ _ _ (by omega)]
        rw [hdt fm (List.mem_cons_self fm fms) hn]
        rw [hfix]
        exact hfix
      · rw [getCol_replaceCol_ne _ _ _ _ hn]
        exact hfix
    · rw [if_neg hc]
      exact hfix

theorem coerceFoldOut_fixed (fms : List FieldMapping)
    (hq : ∀ a ∈ fms, ∀ b ∈ fms,
      a.internalField = b.internalField → a.dataType = b.dataType) :
    ∀ (w : DataFrame), ∀ fm ∈ fms,
      CoerceFixedAt (fms.foldl (fun a f => coerceStep f a) w) fm := by
  induction fms with
  | nil =>
    intro w fm h
    cases h
  | cons f0 fms ih =>
    intro w fm hm hcnt
    rw [List.foldl_cons] at hcnt ⊢
    rcases List.mem_cons.mp hm with heq | hm2
    · subst heq
      have hw : countName w fm.internalField = 1 := by
        rw [countName_coerceFold, countName_coerceStep] at hcnt
        exact hcnt
      refine coerceFold_preserves_fixed fms (coerceStep fm w) fm.internalField
        fm.dataType
        (fun fm2 h2 he =>
          hq fm2 (List.mem_cons_of_mem fm h2) fm (List.mem_cons_self fm fms) he)
        ?_
      unfold coerceStep
      rw [if_pos hw, getCol_replaceCol_self _ _ _ (by omega)]
      exact coerceCol_idem _ _
    · exact ih
        (fun a ha b hb => hq a (List.mem_cons_of_mem f0 ha) b
          (List.mem_cons_of_mem f0 hb))
        (coerceStep f0 w) fm hm2 hcnt

theorem hasColumn_iff_countName (df : DataFrame) (n : String) :
    hasColumn df n = true ↔ 1 ≤ countName df n := by
  induction df with
  | nil => simp [hasColumn, countName]
  | cons p t ih =>
    obtain ⟨a, col⟩ := p
    rw [countName_cons]
    by_cases ha : a = n
    · have hh : hasColumn ((a, col) :: t) n = true := by
        simp [hasColumn, List.any_cons, ha]
      rw [hh, if_pos ha]
      constructor
      · intro
        omega
      · intro
        rfl
    · have hh : hasColumn ((a, col) :: t) n = hasColumn t n := by
        simp [hasColumn, List.any_cons, ha]
      rw [hh, if_neg ha, Nat.add_zero]
      exact ih

theorem aliasAssign_ok_cases (w v : DataFrame) (p : String × String)
    (h : aliasAssign w p = Except.ok v) :
    (¬ (hasColumn w p.1 ∧ ¬ hasColumn w p.2) ∧ v = w) ∨
    ((hasColumn w p.1 ∧ ¬ hasColumn w p.2) ∧
      v = appendCol w p.2 (getCol w p.1)) := by
  unfold aliasAssign at h
  by_cases hc : hasColumn w p.1 ∧ ¬ hasColumn w p.2
  · rw [if_pos hc] at h
    by_cases h1 : countName w p.1 = 1
    · rw [if_pos h1] at h
      exact Or.inr ⟨hc, (Except.ok.inj h).symm⟩
    · rw [if_neg h1] at h
      cases h
  · rw [if_neg hc] at h
    exact Or.inl ⟨hc, (Except.ok.inj h).symm⟩

theorem aliasFold_cons_elim (p0 : String × String)
    (pairs : List (String × String)) (w v : DataFrame)
    (h : aliasFold (p0 :: pairs) w = Except.ok v) :
    ∃ u, aliasAssign w p0 = Except.ok u ∧ aliasFold pairs u = Except.ok v := by
  unfold aliasFold at h
  cases haa : aliasAssign w p0 with
  | ok u =>
    rw [haa] at h
    exact ⟨u, rfl, h⟩
  | error e =>
    rw [haa] at h
    cases h

theorem aliasFold_cons_ok (p0 : String × String)
    (pairs : List (String × String)) (w u : DataFrame)
    (h : aliasAssign w p0 = Except.ok u) :
    aliasFold (p0 :: pairs) w = aliasFold pairs u := by
  exact congrArg (fun x => match x with
    | Except.ok u2 => aliasFold pairs u2
    | Except.error e => Except.error e) h

theorem countName_aliasFold (pairs : List (String × String)) (w v : DataFrame)
    (n : String) (h : ∀ p ∈ pairs, ¬ p.2 = n)
    (hok : aliasFold pairs w = Except.ok v) :
    countName v n = countName w n := by
  induction pairs generalizing w with
  | nil => rw [← Except.ok.inj hok]
  | cons p0 pairs ih =>
    obtain ⟨u, hu, hrest⟩ := aliasFold_cons_elim p0 pairs w v hok
    rcases aliasAssign_ok_cases w u p0 hu with ⟨hsk, rfl⟩ | ⟨hc, rfl⟩
    · exact ih _ (fun p hp => h p (List.mem_cons_of_mem p0 hp)) hrest
    · rw [ih _ (fun p hp => h p (List.mem_cons_of_mem p0 hp)) hrest,
        countName_appendCol, if_neg (h p0 (List.mem_cons_self p0 pairs))]
      omega

theorem getCol_aliasFold (pairs : List (String × String)) (w v : DataFrame)
    (n : String) (h : ∀ p ∈ pairs, ¬ p.2 = n)
    (hok : aliasFold pairs w = Except.ok v) :
    getCol v n = getCol w n := by
  induction pairs generalizing w with
  | nil => rw [← Except.ok.inj hok]
  | cons p0 pairs ih =>
    obtain ⟨u, hu, hrest⟩ := aliasFold_cons_elim p0 pairs w v hok
    rcases aliasAssign_ok_cases w u p0 hu with ⟨hsk, rfl⟩ | ⟨hc, rfl⟩
    · exact ih _ (fun p hp => h p (List.mem_cons_of_mem p0 hp)) hrest
    · rw [ih _ (fun p hp => h p (List.mem_cons_of_mem p0 hp)) hrest,
        getCol_appendCol_ne _ _ _ _ (h p0 (List.mem_cons_self p0 pairs))]

theorem hasColumn_aliasFold_mono (pairs : List (String × String))
    (w v : DataFrame) (n : String) (h : hasColumn w n = true)
    (hok : aliasFold pairs w = Except.ok v) :
    hasColumn v n = true := by
  induction pairs generalizing w with
  | nil =>
    rw [← Except.ok.inj hok]
    exact h
  | cons p0 pairs ih =>
    obtain ⟨u, hu, hrest⟩ := aliasFold_cons_elim p0 pairs w v hok
    rcases aliasAssign_ok_cases w u p0 hu with ⟨hsk, rfl⟩ | ⟨hc, rfl⟩
    · exact ih _ h hrest
    · exact ih _ (by rw [hasColumn_appendCol, h]; rfl) hrest

theorem hasColumn_aliasFold_ne (pairs : List (String × String))
    (w v : DataFrame) (n : String) (h : ∀ p ∈ pairs, ¬ p.2 = n)
    (hok : aliasFold pairs w = Except.ok v) :
    hasColumn v n = hasColumn w n := by
  induction pairs generalizing w with
  | nil => rw [← Except.ok.inj hok]
  | cons p0 pairs ih =>
    obtain ⟨u, hu, hrest⟩ := aliasFold_cons_elim p0 pairs w v hok
    rcases aliasAssign_ok_cases w u p0 hu with ⟨hsk, rfl⟩ | ⟨hc, rfl⟩
    · exact ih _ (fun p hp => h p (List.mem_cons_of_mem p0 hp)) hrest
    · rw [ih _ (fun p hp => h p (List.mem_cons_of_mem p0 hp)) hrest,
        hasColumn_appendCol]
      simp [h p0 (List.mem_cons_self p0 pairs)]

theorem aliasFold_invariant (pairs : List (String × String)) (w v : DataFrame)
    (hdisj : ∀ p ∈ pairs, ∀ q ∈ pairs, ¬ q.2 = p.1)
    (hok : aliasFold pairs w = Except.ok v) :
    ∀ p ∈ pairs, hasColumn v p.1 = true → hasColumn v p.2 = true := by
  induction pairs generalizing w with
  | nil =>
    intro p hp
    cases hp
  | cons p0 pairs ih =>
    intro p hp hcol
    obtain ⟨u, hu, hrest⟩ := aliasFold_cons_elim p0 pairs w v hok
    rcases List.mem_cons.mp hp with heq | hm2
    · subst heq
      have hne1 : ∀ q ∈ pairs, ¬ q.2 = p.1 := fun q hq =>
        hdisj p (List.mem_cons_self p pairs) q (List.mem_cons_of_mem p hq)
      rcases aliasAssign_ok_cases w u p hu with ⟨hsk, rfl⟩ | ⟨hc, rfl⟩
      · rw [hasColumn_aliasFold_ne pairs _ v p.1 hne1 hrest] at hcol
        rcases Decidable.not_and_iff_or_not.mp hsk with hc1 | hc2
        · exact absurd hcol hc1
        · exact hasColumn_aliasFold_mono pairs _ v p.2
            (by simpa using Decidable.not_not.mp hc2) hrest
      · exact hasColumn_aliasFold_mono pairs _ v p.2
          (by rw [hasColumn_appendCol]; simp) hrest
    · exact ih _ (fun a ha b hb =>
        hdisj a (List.mem_cons_of_mem p0 ha) b (List.mem_cons_of_mem p0 hb))
        hrest p hm2 hcol

theorem aliasFold_idem (pairs : List (String × String)) (w : DataFrame)
    (hinv : ∀ p ∈ pairs, hasColumn w p.1 = true → hasColumn w p.2 = true) :
    aliasFold pairs w = Except.ok w := by
  induction pairs with
  | nil => rfl
  | cons p0 pairs ih =>
    have hcond : ¬ (hasColumn w p0.1 ∧ ¬ hasColumn w p0.2) := by
      intro hc
      exact hc.2 (hinv p0 (List.mem_cons_self p0 pairs) hc.1)
    have ha : aliasAssign w p0 = Except.ok w := by
      unfold aliasAssign
      rw [if_neg hcond]
    rw [aliasFold_cons_ok p0 pairs w w ha]
    exact ih (fun p hp => hinv p (List.mem_cons_of_mem p0 hp))

theorem map_eq_self_mem {α : Type} {f : α → α} {l : List α}
    (h : l.map f = l) : ∀ x ∈ l, f x = x := by
  induction l with
  | nil =>
    intro x hx
    cases hx
  | cons a t ih =>
    intro x hx
    rw [List.map_cons, List.cons.injEq] at h
    rcases List.mem_cons.mp hx with rfl | hx2
    · exact h.1
    · exact ih h.2 x hx2

theorem combinedDateBranch_inert (A : DataFrame)
    (hfix : countName A "date" = 1 →
      coerceCol "datetime" (getCol A "date") = getCol A "date") :
    combinedDateBranch A = A := by
  unfold combinedDateBranch
  by_cases h1 : countName A "date" = 1 ∧ (getCol A "date").any isStrCell = true
  · exfalso
    obtain ⟨hc, hstr⟩ := h1
    have hfx := hfix hc
    have hdc : coerceCol "datetime" (getCol A "date") =
        coerceDatetimeCol (getCol A "date") := by
      simp [coerceCol]
    rw [hdc] at hfx
    obtain ⟨x, hx, hxs⟩ := List.any_eq_true.mp hstr
    have hsame := map_eq_self_mem hfx x hx
    cases x with
    | str s =>
      cases hp : parseDateStr s <;> simp [toDatetimeCell, hp] at hsame
    | num q => simp [isStrCell] at hxs
    | intv n => simp [isStrCell] at hxs
    | date d => simp [isStrCell] at hxs
    | null => simp [isStrCell] at hxs
  · rw [if_neg h1]

theorem renameColumns_id (df : DataFrame) (mapping : List (String × String))
    (h : ∀ n ∈ colNames df, mapping.find? (fun p => p.1 = n) = none) :
    renameColumns df mapping = df := by
  unfold renameColumns
  induction df with
  | nil => rfl
  | cons p t ih =>
    rw [List.map_cons]
    have hhead : applyMapping mapping p.1 = p.1 := by
      unfold applyMapping
      rw [h p.1 (by simp [colNames])]
      rfl
    rw [hhead]
    have htail := ih (fun n hn => h n (by simp [colNames] at hn ⊢; exact Or.inr hn))
    rw [htail]

theorem coerceFixed_aliasFold (pairs : List (String × String))
    (C D : DataFrame) (fm : FieldMapping)
    (hne : ∀ p ∈ pairs, ¬ p.2 = fm.internalField)
    (h : CoerceFixedAt C fm) (hok : aliasFold pairs C = Except.ok D) :
    CoerceFixedAt D fm := by
  intro hcnt
  rw [countName_aliasFold pairs C D _ hne hok] at hcnt
  rw [getCol_aliasFold pairs C D _ hne hok]
  exact h hcnt

/-- Evaluation rule for `transformDataframe` when the alias loop
succeeds. -/
theorem transformDataframe_ok_aliased (df : DataFrame)
    (mapping : List (String × String)) (A : DataFrame)
    (hA : aliasStep (coerceAll (renameColumns df mapping)) = Except.ok A) :
    transformDataframe df mapping =
      if 2 ≤ countName A "date" then
        Except.error "AttributeError: dtype on duplicate date columns"
      else Except.ok (combinedDateBranch A) := by
  unfold transformDataframe
  rw [hA]

/-- Evaluation rule for `transformDataframe` when an alias assignment
raises. -/
theorem transformDataframe_alias_error (df : DataFrame)
    (mapping : List (String × String)) (e : String)
    (hA : aliasStep (coerceAll (renameColumns df mapping)) = Except.error e) :
    transformDataframe df mapping = Except.error e := by
  unfold transformDataframe
  rw [hA]

/-- The canonical `date` field mapping (registration entry 3). -/
def dateFieldMapping : FieldMapping :=
  { csvHeaders := ["Date", "date", "created_date", "Created Date",
      "order_date", "Order Date", "timestamp"], internalField := "date",
    required := true, dataType := "datetime" }

/-- **C8 (amended).** `coerceTypes` (the whole `transform_dataframe`) is
idempotent on every dataset and mapping for which no column name of the
once-transformed frame is still a key of the header mapping.  Without
that proviso a second application re-renames alias columns, duplicates
an internal label and raises on the multi-column alias assignment (see
the counterexample) — the coercion, alias and combined-date stages by
themselves are idempotent. -/
theorem coerceTypes_idempotent_of_no_rekey (df : DataFrame)
    (mapping : List (String × String)) (t1 : DataFrame)
    (hok : transformDataframe df mapping = Except.ok t1)
    (hkeys : ∀ n ∈ colNames t1, mapping.find? (fun p => p.1 = n) = none) :
    transformDataframe t1 mapping = Except.ok t1 := by
  cases hA : aliasStep (coerceAll (renameColumns df mapping)) with
  | error e =>
    rw [transformDataframe_alias_error df mapping e hA] at hok
    cases hok
  | ok A =>
    rw [transformDataframe_ok_aliased df mapping A hA] at hok
    by_cases hc : 2 ≤ countName A "date"
    · rw [if_pos hc] at hok
      cases hok
    · rw [if_neg hc] at hok
      have hqu : ∀ a ∈ fieldMappings, ∀ b ∈ fieldMappings,
          a.internalField = b.internalField → a.dataType = b.dataType := by
        decide
      have htni : ∀ fm ∈ fieldMappings, ∀ p ∈ compatibilityAliases,
          ¬ p.2 = fm.internalField := by decide
      have hfixA : ∀ fm ∈ fieldMappings, CoerceFixedAt A fm := by
        intro fm hm
        exact coerceFixed_aliasFold _ _ _ fm (fun p hp => htni fm hm p hp)
          (coerceFoldOut_fixed fieldMappings hqu _ fm hm) hA
      have hdmem : dateFieldMapping ∈ fieldMappings := by decide
      have hbranch : combinedDateBranch A = A :=
        combinedDateBranch_inert _ (hfixA dateFieldMapping hdmem)
      have ht1A : t1 = A := by
        have h2 := hok
        rw [hbranch] at h2
        exact (Except.ok.inj h2).symm
      subst ht1A
      have hco : coerceAll t1 = t1 :=
        coerceFold_fixed fieldMappings _ (fun fm hm => hfixA fm hm)
      have hdisj : ∀ p ∈ compatibilityAliases, ∀ q ∈ compatibilityAliases,
          ¬ q.2 = p.1 := by decide
      have hal : aliasStep t1 = Except.ok t1 :=
        aliasFold_idem compatibilityAliases t1
          (aliasFold_invariant compatibilityAliases _ t1 hdisj hA)
      rw [transformDataframe_ok_aliased t1 mapping t1
        (by rw [renameColumns_id t1 mapping hkeys, hco]; exact hal)]
      rw [if_neg hc, hbranch]

/-- Counterexample to C8 as stated: a frame whose single header
`Total Amount` maps onto `total_amount`.  The first application renames
it and adds the `Total Amount` backward-compatibility alias; the second
application renames the alias column as well, leaving a duplicate
`total_amount` label, so the first alias assignment selects a
two-column frame and the code raises an uncaught ValueError instead of
returning the same frame. -/
def dfCex : DataFrame := [("Total Amount", [CellV.null])]

def mapCex : List (String × String) := [("Total Amount", "total_amount")]

def t1Cex : DataFrame :=
  [("total_amount", [CellV.null]), ("Total Amount", [CellV.null])]

set_option maxRecDepth 100000 in
theorem coerceTypes_idempotent_counterexample :
    transformDataframe dfCex mapCex = Except.ok t1Cex ∧
    transformDataframe t1Cex mapCex = Except.error
      "ValueError: cannot set a DataFrame with multiple columns to a single column" ∧
    ¬ transformDataframe t1Cex mapCex = Except.ok t1Cex := by
  refine ⟨rfl, rfl, ?_⟩
  intro h
  rw [show transformDataframe t1Cex mapCex = Except.error
      "ValueError: cannot set a DataFrame with multiple columns to a single column"
    from rfl] at h
  cases h

/-- Witness for the amended C8: the header `Product` (whose alias
column `Product Name` is not a mapping key) transforms idempotently. -/
def dfIdemWit : DataFrame := [("Product", [CellV.str "w"])]

def mapIdemWit : List (String × String) := [("Product", "product_name")]

def t1IdemWit : DataFrame :=
  [("product_name", [CellV.str "w"]), ("Product Name", [CellV.str "w"])]

set_option maxRecDepth 100000 in
theorem coerceTypes_idempotent_witness :
    transformDataframe t1IdemWit mapIdemWit = Except.ok t1IdemWit :=
  coerceTypes_idempotent_of_no_rekey dfIdemWit mapIdemWit t1IdemWit rfl
    (by decide)

theorem coerceFloatCol_length (c : Col) :
    (coerceFloatCol c).length = c.length := by
  unfold coerceFloatCol
  by_cases h : c.any isDateCell = true
  · rw [if_pos h]
  · rw [if_neg h, List.length_map]

/-- Scenario B input: headers exactly `["amount", "product", "email"]`
with arbitrary cell contents. -/
def dfScenB (vals : List (CellV × CellV × CellV)) : DataFrame :=
  [("amount", vals.map (fun v => v.1)),
   ("product", vals.map (fun v => v.2.1)),
   ("email", vals.map (fun v => v.2.2))]

/-- The frame scenario B produces: the three mapped (and, for the
amount, numerically coerced) columns, their three display aliases, then
the synthesized `customer_id` (from the email strings) and `order_id`
(prefix + row index) appended — nothing overwritten. -/
def gScenB (vals : List (CellV × CellV × CellV)) : DataFrame :=
  [("total_amount",
      coerceFloatCol (coerceFloatCol (vals.map (fun v => v.1)))),
   ("product_name", vals.map (fun v => v.2.1)),
   ("customer_email", vals.map (fun v => v.2.2)),
   ("Total Amount",
      coerceFloatCol (coerceFloatCol (vals.map (fun v => v.1)))),
   ("Product Name", vals.map (fun v => v.2.1)),
   ("Customer Email", vals.map (fun v => v.2.2)),
   ("customer_id",
      (vals.map (fun v => v.2.2)).map (fun c => CellV.str (cellPyStr c))),
   ("order_id",
      (List.range vals.length).map (fun i =>
        CellV.str ("ORDER_" ++ toString i)))]

/-! ### Scenario B helper evaluations -/

theorem coerceScenB (as ps es : Col) :
    coerceAll [("total_amount", as), ("product_name", ps),
      ("customer_email", es)] =
    [("total_amount", coerceFloatCol (coerceFloatCol as)),
     ("product_name", ps), ("customer_email", es)] := by
  simp only [coerceAll, fieldMappings, List.foldl_cons, List.foldl_nil,
    coerceStep, countName, List.filter, getCol, List.find?, replaceCol,
    List.map, coerceCol, decide_True, decide_False, if_true, if_false,
    String.reduceEq, Option.map, Option.getD]
  simp
  exact ⟨rfl, rfl⟩

theorem aliasScenB (a2 ps es : Col) :
    aliasStep [("total_amount", a2), ("product_name", ps), ("customer_email", es)] =
    Except.ok [("total_amount", a2), ("product_name", ps), ("customer_email", es), ("Total Amount", a2), ("Product Name", ps), ("Customer Email", es)] := by
  unfold aliasStep compatibilityAliases
  rw [aliasFold_cons_ok ("total_amount", "Total Amount") _ [("total_amount", a2), ("product_name", ps), ("customer_email", es)] [("total_amount", a2), ("product_name", ps), ("customer_email", es), ("Total Amount", a2)] (by
    unfold aliasAssign
    dsimp only
    rw [if_pos ⟨(show hasColumn [("total_amount", a2), ("product_name", ps), ("customer_email", es)] "total_amount" = true from rfl),
      (by simp [show hasColumn [("total_amount", a2), ("product_name", ps), ("customer_email", es)] "Total Amount" = false from rfl])⟩]
    rw [if_pos (show countName [("total_amount", a2), ("product_name", ps), ("customer_email", es)] "total_amount" = 1 from rfl)]
    rfl)]
  rw [aliasFold_cons_ok ("date", "Date") _ [("total_amount", a2), ("product_name", ps), ("customer_email", es), ("Total Amount", a2)] [("total_amount", a2), ("product_name", ps), ("customer_email", es), ("Total Amount", a2)] (by
    unfold aliasAssign
    dsimp only
    rw [if_neg (by simp [show hasColumn [("total_amount", a2), ("product_name", ps), ("customer_email", es), ("Total Amount", a2)] "date" = false from rfl])])]
  rw [aliasFold_cons_ok ("product_name", "Product Name") _ [("total_amount", a2), ("product_name", ps), ("customer_email", es), ("Total Amount", a2)] [("total_amount", a2), ("product_name", ps), ("customer_email", es), ("Total Amount", a2), ("Product Name", ps)] (by
    unfold aliasAssign
    dsimp only
    rw [if_pos ⟨(show hasColumn [("total_amount", a2), ("product_name", ps), ("customer_email", es), ("Total Amount", a2)] "product_name" = true from rfl),
      (by simp [show hasColumn [("total_amount", a2), ("product_name", ps), ("customer_email", es), ("Total Amount", a2)] "Product Name" = false from rfl])⟩]
    rw [if_pos (show countName [("total_amount", a2), ("product_name", ps), ("customer_email", es), ("Total Amount", a2)] "product_name" = 1 from rfl)]
    rfl)]
  rw [aliasFold_cons_ok ("customer_name", "Customer Name") _ [("total_amount", a2), ("product_name", ps), ("customer_email", es), ("Total Amount", a2), ("Product Name", ps)] [("total_amount", a2), ("product_name", ps), ("customer_email", es), ("Total Amount", a2), ("Product Name", ps)] (by
    unfold aliasAssign
    dsimp only
    rw [if_neg (by simp [show hasColumn [("total_amount", a2), ("product_name", ps), ("customer_email", es), ("Total Amount", a2), ("Product Name", ps)] "customer_name" = false from rfl])])]
  rw [aliasFold_cons_ok ("customer_email", "Customer Email") _ [("total_amount", a2), ("product_name", ps), ("customer_email", es), ("Total Amount", a2), ("Product Name", ps)] [("total_amount", a2), ("product_name", ps), ("customer_email", es), ("Total Amount", a2), ("Product Name", ps), ("Customer Email", es)] (by
    unfold aliasAssign
    dsimp only
    rw [if_pos ⟨(show hasColumn [("total_amount", a2), ("product_name", ps), ("customer_email", es), ("Total Amount", a2), ("Product Name", ps)] "customer_email" = true from rfl),
      (by simp [show hasColumn [("total_amount", a2), ("product_name", ps), ("customer_email", es), ("Total Amount", a2), ("Product Name", ps)] "Customer Email" = false from rfl])⟩]
    rw [if_pos (show countName [("total_amount", a2), ("product_name", ps), ("customer_email", es), ("Total Amount", a2), ("Product Name", ps)] "customer_email" = 1 from rfl)]
    rfl)]
  rw [aliasFold_cons_ok ("order_id", "Order ID") _ [("total_amount", a2), ("product_name", ps), ("customer_email", es), ("Total Amount", a2), ("Product Name", ps), ("Customer Email", es)] [("total_amount", a2), ("product_name", ps), ("customer_email", es), ("Total Amount", a2), ("Product Name", ps), ("Customer Email", es)] (by
    unfold aliasAssign
    dsimp only
    rw [if_neg (by simp [show hasColumn [("total_amount", a2), ("product_name", ps), ("customer_email", es), ("Total Amount", a2), ("Product Name", ps), ("Customer Email", es)] "order_id" = false from rfl])])]
  rw [aliasFold_cons_ok ("customer_id", "Customer ID") _ [("total_amount", a2), ("product_name", ps), ("customer_email", es), ("Total Amount", a2), ("Product Name", ps), ("Customer Email", es)] [("total_amount", a2), ("product_name", ps), ("customer_email", es), ("Total Amount", a2), ("Product Name", ps), ("Customer Email", es)] (by
    unfold aliasAssign
    dsimp only
    rw [if_neg (by simp [show hasColumn [("total_amount", a2), ("product_name", ps), ("customer_email", es), ("Total Amount", a2), ("Product Name", ps), ("Customer Email", es)] "customer_id" = false from rfl])])]
  rw [aliasFold_cons_ok ("quantity", "Quantity") _ [("total_amount", a2), ("product_name", ps), ("customer_email", es), ("Total Amount", a2), ("Product Name", ps), ("Customer Email", es)] [("total_amount", a2), ("product_name", ps), ("customer_email", es), ("Total Amount", a2), ("Product Name", ps), ("Customer Email", es)] (by
    unfold aliasAssign
    dsimp only
    rw [if_neg (by simp [show hasColumn [("total_amount", a2), ("product_name", ps), ("customer_email", es), ("Total Amount", a2), ("Product Name", ps), ("Customer Email", es)] "quantity" = false from rfl])])]
  rw [aliasFold_cons_ok ("product_price", "Product Price") _ [("total_amount", a2), ("product_name", ps), ("customer_email", es), ("Total Amount", a2), ("Product Name", ps), ("Customer Email", es)] [("total_amount", a2), ("product_name", ps), ("customer_email", es), ("Total Amount", a2), ("Product Name", ps), ("Customer Email", es)] (by
    unfold aliasAssign
    dsimp only
    rw [if_neg (by simp [show hasColumn [("total_amount", a2), ("product_name", ps), ("customer_email", es), ("Total Amount", a2), ("Product Name", ps), ("Customer Email", es)] "product_price" = false from rfl])])]
  rw [aliasFold_cons_ok ("tax_amount", "Tax Amount") _ [("total_amount", a2), ("product_name", ps), ("customer_email", es), ("Total Amount", a2), ("Product Name", ps), ("Customer Email", es)] [("total_amount", a2), ("product_name", ps), ("customer_email", es), ("Total Amount", a2), ("Product Name", ps), ("Customer Email", es)] (by
    unfold aliasAssign
    dsimp only
    rw [if_neg (by simp [show hasColumn [("total_amount", a2), ("product_name", ps), ("customer_email", es), ("Total Amount", a2), ("Product Name", ps), ("Customer Email", es)] "tax_amount" = false from rfl])])]
  rw [aliasFold_cons_ok ("payment_status", "Payment Status") _ [("total_amount", a2), ("product_name", ps), ("customer_email", es), ("Total Amount", a2), ("Product Name", ps), ("Customer Email", es)] [("total_amount", a2), ("product_name", ps), ("customer_email", es), ("Total Amount", a2), ("Product Name", ps), ("Customer Email", es)] (by
    unfold aliasAssign
    dsimp only
    rw [if_neg (by simp [show hasColumn [("total_amount", a2), ("product_name", ps), ("customer_email", es), ("Total Amount", a2), ("Product Name", ps), ("Customer Email", es)] "payment_status" = false from rfl])])]
  rw [aliasFold_cons_ok ("payment_method", "Payment Method") _ [("total_amount", a2), ("product_name", ps), ("customer_email", es), ("Total Amount", a2), ("Product Name", ps), ("Customer Email", es)] [("total_amount", a2), ("product_name", ps), ("customer_email", es), ("Total Amount", a2), ("Product Name", ps), ("Customer Email", es)] (by
    unfold aliasAssign
    dsimp only
    rw [if_neg (by simp [show hasColumn [("total_amount", a2), ("product_name", ps), ("customer_email", es), ("Total Amount", a2), ("Product Name", ps), ("Customer Email", es)] "payment_method" = false from rfl])])]
  rw [aliasFold_cons_ok ("referral_source", "Referral Source") _ [("total_amount", a2), ("product_name", ps), ("customer_email", es), ("Total Amount", a2), ("Product Name", ps), ("Customer Email", es)] [("total_amount", a2), ("product_name", ps), ("customer_email", es), ("Total Amount", a2), ("Product Name", ps), ("Customer Email", es)] (by
    unfold aliasAssign
    dsimp only
    rw [if_neg (by simp [show hasColumn [("total_amount", a2), ("product_name", ps), ("customer_email", es), ("Total Amount", a2), ("Product Name", ps), ("Customer Email", es)] "referral_source" = false from rfl])])]
  rfl

theorem transScenB (as ps es : Col) :
    transformDataframe [("amount", as), ("product", ps), ("email", es)]
      [("amount", "total_amount"), ("product", "product_name"),
      ("email", "customer_email")] = Except.ok
    [("total_amount", coerceFloatCol (coerceFloatCol as)),
     ("product_name", ps), ("customer_email", es),
     ("Total Amount", coerceFloatCol (coerceFloatCol as)),
     ("Product Name", ps), ("Customer Email", es)] := by
  have hcnt : countName [("total_amount", coerceFloatCol (coerceFloatCol as)),
     ("product_name", ps), ("customer_email", es),
     ("Total Amount", coerceFloatCol (coerceFloatCol as)),
     ("Product Name", ps), ("Customer Email", es)] "date" = 0 := rfl
  have hbr : combinedDateBranch [("total_amount", coerceFloatCol (coerceFloatCol as)),
     ("product_name", ps), ("customer_email", es),
     ("Total Amount", coerceFloatCol (coerceFloatCol as)),
     ("Product Name", ps), ("Customer Email", es)] =
      [("total_amount", coerceFloatCol (coerceFloatCol as)),
     ("product_name", ps), ("customer_email", es),
     ("Total Amount", coerceFloatCol (coerceFloatCol as)),
     ("Product Name", ps), ("Customer Email", es)] := by
    unfold combinedDateBranch
    rw [if_neg (by simp [hcnt])]
  have hA : aliasStep (coerceAll (renameColumns
      [("amount", as), ("product", ps), ("email", es)]
      [("amount", "total_amount"), ("product", "product_name"),
      ("email", "customer_email")])) = Except.ok
      [("total_amount", coerceFloatCol (coerceFloatCol as)),
     ("product_name", ps), ("customer_email", es),
     ("Total Amount", coerceFloatCol (coerceFloatCol as)),
     ("Product Name", ps), ("Customer Email", es)] := by
    rw [show renameColumns [("amount", as), ("product", ps), ("email", es)]
      [("amount", "total_amount"), ("product", "product_name"),
      ("email", "customer_email")] =
      [("total_amount", as), ("product_name", ps), ("customer_email", es)]
      from rfl]
    rw [coerceScenB]
    exact aliasScenB _ _ _
  refine Eq.trans (transformDataframe_ok_aliased _ _ _ hA) ?_
  rw [if_neg (by rw [hcnt]; omega)]
  rw [hbr]

/-- The synthesized frame of scenario B, before identifying the row
count with the input length. -/
def gScenBRaw (as ps es : Col) : DataFrame :=
  [("total_amount", coerceFloatCol (coerceFloatCol as)),
   ("product_name", ps), ("customer_email", es),
   ("Total Amount", coerceFloatCol (coerceFloatCol as)),
   ("Product Name", ps), ("Customer Email", es),
   ("customer_id", es.map (fun c => CellV.str (cellPyStr c))),
   ("order_id", (List.range (coerceFloatCol (coerceFloatCol as)).length).map
      (fun i => CellV.str ("ORDER_" ++ toString i)))]

theorem genScenB (as ps es : Col) :
    generateMissingFields
      [("total_amount", coerceFloatCol (coerceFloatCol as)),
     ("product_name", ps), ("customer_email", es),
     ("Total Amount", coerceFloatCol (coerceFloatCol as)),
     ("Product Name", ps), ("Customer Email", es)]
      [("amount", "total_amount"), ("product", "product_name"),
      ("email", "customer_email")]
      [("amount", as), ("product", ps), ("email", es)] =
    gScenBRaw as ps es := rfl

theorem valScenB (as ps es : Col) :
    validateRequiredFields
      [("amount", "total_amount"), ("product", "product_name"),
      ("email", "customer_email")]
      (gScenBRaw as ps es) = ["date"] := rfl

theorem gScenBRaw_eq (vals : List (CellV × CellV × CellV)) :
    gScenBRaw (vals.map (fun v => v.1)) (vals.map (fun v => v.2.1))
      (vals.map (fun v => v.2.2)) = gScenB vals := by
  unfold gScenBRaw gScenB
  rw [coerceFloatCol_length, coerceFloatCol_length, List.length_map]

set_option maxRecDepth 100000 in
theorem processNewFormat_eq (df t : DataFrame)
    (mm : List (String × String)) (um : List String)
    (hm : mapHeaders (colNames df) = (mm, um))
    (ht : transformDataframe df mm = Except.ok t) :
    processNewFormat df = Except.ok (generateMissingFields t mm df,
      validateRequiredFields mm (generateMissingFields t mm df)) := by
  unfold processNewFormat
  simp only [hm]
  rw [ht]

set_option maxRecDepth 100000 in
theorem processScenB (vals : List (CellV × CellV × CellV)) :
    processNewFormat (dfScenB vals) = Except.ok (gScenB vals, ["date"]) := by
  have hm : mapHeaders (colNames (dfScenB vals)) =
      ([("amount", "total_amount"), ("product", "product_name"),
      ("email", "customer_email")], []) := by
    show mapHeaders ["amount", "product", "email"] = _
    decide
  have ht : transformDataframe (dfScenB vals)
      [("amount", "total_amount"), ("product", "product_name"),
      ("email", "customer_email")] = Except.ok
      [("total_amount", coerceFloatCol (coerceFloatCol (vals.map (fun v => v.1)))),
       ("product_name", vals.map (fun v => v.2.1)),
       ("customer_email", vals.map (fun v => v.2.2)),
       ("Total Amount", coerceFloatCol (coerceFloatCol (vals.map (fun v => v.1)))),
       ("Product Name", vals.map (fun v => v.2.1)),
       ("Customer Email", vals.map (fun v => v.2.2))] := by
    exact transScenB _ _ _
  have hg : generateMissingFields
      [("total_amount", coerceFloatCol (coerceFloatCol (vals.map (fun v => v.1)))),
       ("product_name", vals.map (fun v => v.2.1)),
       ("customer_email", vals.map (fun v => v.2.2)),
       ("Total Amount", coerceFloatCol (coerceFloatCol (vals.map (fun v => v.1)))),
       ("Product Name", vals.map (fun v => v.2.1)),
       ("Customer Email", vals.map (fun v => v.2.2))]
      [("amount", "total_amount"), ("product", "product_name"),
      ("email", "customer_email")] (dfScenB vals) =
      gScenBRaw (vals.map (fun v => v.1)) (vals.map (fun v => v.2.1))
        (vals.map (fun v => v.2.2)) := by
    exact genScenB _ _ _
  refine Eq.trans (processNewFormat_eq _ _ _ [] hm ht) ?_
  exact congrArg Except.ok (congrArg₂ Prod.mk (hg.trans (gScenBRaw_eq vals))
    ((congrArg _ hg).trans (valScenB _ _ _)))

set_option maxRecDepth 100000 in
/-- **C5 (amended).** On headers `["amount","product","email"]` the
pipeline maps them to `total_amount` / `product_name` /
`customer_email`, synthesizes `customer_id` from the email column and
`order_id` via the prefix-plus-index fallback (`"ORDER_0"` for the
first row, date being absent), appending both without overwriting any
existing column — but required-field validation does **not** pass: it
reports exactly `["date"]` missing (`date` is required and cannot be
synthesized). -/
theorem headers_without_identifiers_synthesize
    (vals : List (CellV × CellV × CellV)) :
    mapHeaders (colNames (dfScenB vals)) =
      ([("amount", "total_amount"), ("product", "product_name"),
        ("email", "customer_email")], []) ∧
    processNewFormat (dfScenB vals) = Except.ok (gScenB vals, ["date"]) ∧
    getCol (gScenB vals) "customer_id" =
      (vals.map (fun v => v.2.2)).map (fun c => CellV.str (cellPyStr c)) ∧
    getCol (gScenB vals) "order_id" =
      (List.range vals.length).map (fun i =>
        CellV.str ("ORDER_" ++ toString i)) ∧
    (¬ vals = [] →
      (getCol (gScenB vals) "order_id").head? =
        some (CellV.str "ORDER_0")) := by
  refine ⟨?_, processScenB vals, rfl, rfl, ?_⟩
  · rw [show colNames (dfScenB vals) = ["amount", "product", "email"] from rfl]
    decide
  · intro h
    rcases vals with _ | ⟨v, t⟩
    · exact absurd rfl h
    · have hg : getCol (gScenB (v :: t)) "order_id" =
          (List.range (v :: t).length).map (fun i =>
            CellV.str ("ORDER_" ++ toString i)) := rfl
      rw [hg]
      have hr : List.range (v :: t).length =
          0 :: (List.range t.length).map Nat.succ := by
        rw [List.length_cons, List.range_succ_eq_map]
      rw [hr, List.map_cons]
      rfl

/-- Counterexample to C5 as stated: on a concrete one-row input with
those headers, the missing-required-fields list is `["date"]`, not
empty, so required-field validation fails. -/
def valsCexC5 : List (CellV × CellV × CellV) :=
  [(CellV.null, CellV.null, CellV.null)]

theorem headers_without_identifiers_counterexample :
    processNewFormat (dfScenB valsCexC5) =
      Except.ok (gScenB valsCexC5, ["date"]) ∧
    ¬ (["date"] : List String) = [] :=
  ⟨processScenB valsCexC5, by decide⟩

def valsWitC5 : List (CellV × CellV × CellV) :=
  [(CellV.null, CellV.str "Widget", CellV.str "a@b.c")]

theorem headers_without_identifiers_witness :
    (getCol (gScenB valsWitC5) "order_id").head? =
      some (CellV.str "ORDER_0") :=
  (headers_without_identifiers_synthesize valsWitC5).2.2.2.2 (by decide)

end Stanlytics
